import Mathlib

/-!
Shallow embedding of the `aiochlite` converter and core-client code
(`aiochlite/converters/from_clickhouse.py`, `to_clickhouse.py`, `to_json.py`,
`aiochlite/core/client.py`) together with theorems settling the frozen claims.

Python strings are modelled as `List Char`; Python runtime values as the
inductive `PyValue`; fallible Python code (code that can raise) returns
`Option` / `Except`.
-/

set_option maxHeartbeats 1000000

/-- Python strings are modelled as lists of characters. -/
abbrev Str := List Char

/-- Characters stripped by Python's `str.strip()` (ASCII whitespace; the
further Unicode whitespace stripped by Python does not occur in the data
handled here). -/
def isPyWs (c : Char) : Bool :=
  c = ' ' ∨ c = '\t' ∨ c = '\n' ∨ c = '\r' ∨ c = '\x0b' ∨ c = '\x0c'

/-- Python `str.strip()`: drop leading and trailing whitespace. -/
def pyStrip (l : Str) : Str :=
  ((l.dropWhile isPyWs).reverse.dropWhile isPyWs).reverse

/-- Digit string of a natural number (Python `str` on a nonnegative int),
with explicit fuel (`n + 1` always suffices). -/
def natReprCore : Nat → Nat → Str → Str
  | 0, _, acc => acc
  | fuel + 1, n, acc =>
      let d := Char.ofNat ('0'.toNat + n % 10)
      if n < 10 then d :: acc else natReprCore fuel (n / 10) (d :: acc)

def natRepr (n : Nat) : Str := natReprCore (n + 1) n []

/-- Python `str` of an int: optional minus sign followed by the digits. -/
def intRepr : Int → Str
  | Int.ofNat n => natRepr n
  | Int.negSucc n => '-' :: natRepr (n + 1)

/-- `sep.join(parts)` from Python. -/
def pyJoin (sep : Str) : List Str → Str
  | [] => []
  | [p] => p
  | p :: ps => p ++ sep ++ pyJoin sep ps

/-! ## The top-level comma split of `from_clickhouse.py`

`_TOP_LEVEL_COMMA_SPLIT_RE = re.compile(r",(?![^()]*\))")` and

```python
def _split_type_arguments(type_list: str) -> list[str]:
    return [part.strip() for part in _TOP_LEVEL_COMMA_SPLIT_RE.split(type_list) if part.strip()]
```

`re.split` with that pattern splits at a comma exactly when the negative
lookahead fails, i.e. exactly when the text after the comma does NOT consist
of zero or more non-parenthesis characters followed by a closing parenthesis.
Equivalently: the comma is a split point unless the first parenthesis
character after it (if any) is a `)`. -/

/-- The lookahead `[^()]*\)` of `_TOP_LEVEL_COMMA_SPLIT_RE`: succeeds exactly
when the first `(` or `)` in the remaining text is a `)`. -/
def lookaheadCloses : Str → Bool
  | [] => false
  | '(' :: _ => false
  | ')' :: _ => true
  | _ :: rest => lookaheadCloses rest

/-- `re.split` of `_TOP_LEVEL_COMMA_SPLIT_RE`: scan left to right, splitting
at every comma whose lookahead fails. -/
def regexCommaSplit (acc : Str) : Str → List Str
  | [] => [acc.reverse]
  | ',' :: rest =>
      if lookaheadCloses rest then regexCommaSplit (',' :: acc) rest
      else acc.reverse :: regexCommaSplit [] rest
  | c :: rest => regexCommaSplit (c :: acc) rest

/-- `_split_type_arguments` from `aiochlite/converters/from_clickhouse.py`. -/
def split_type_arguments (type_list : Str) : List Str :=
  ((regexCommaSplit [] type_list).map pyStrip).filter (fun p => p ≠ [])

/-- The splitting rule as the specification states it ("split it at top-level
commas — commas not enclosed by `(…)` and not inside single-quoted literals"):
track parenthesis depth and a single-quote flag, and split only at commas at
depth zero outside quotes. -/
def specSplitTopLevelAux (acc : Str) (depth : Nat) (inQuote : Bool) : Str → List Str
  | [] => [acc.reverse]
  | c :: rest =>
      if c = '\'' then specSplitTopLevelAux (c :: acc) depth (!inQuote) rest
      else if inQuote then specSplitTopLevelAux (c :: acc) depth inQuote rest
      else if c = '(' then specSplitTopLevelAux (c :: acc) (depth + 1) inQuote rest
      else if c = ')' then specSplitTopLevelAux (c :: acc) (depth - 1) inQuote rest
      else if c = ',' ∧ depth = 0 then acc.reverse :: specSplitTopLevelAux [] depth inQuote rest
      else specSplitTopLevelAux (c :: acc) depth inQuote rest

/-- Spec-side top-level split, with the same strip-and-drop-empties
post-processing as the source function. -/
def specSplitTopLevel (type_list : Str) : List Str :=
  ((specSplitTopLevelAux [] 0 false type_list).map pyStrip).filter (fun p => p ≠ [])

example :
    split_type_arguments "Date, Int32, Int32, Decimal(9, 2)".data =
      ["Date".data, "Int32".data, "Int32".data, "Decimal(9, 2)".data] := by decide

example :
    split_type_arguments "DateTime64(6, 'Europe/Moscow'), Nullable(String)".data =
      ["DateTime64(6, 'Europe/Moscow')".data, "Nullable(String)".data] := by decide

example :
    split_type_arguments "String, Array(Tuple(Date, Int32, Int32, Decimal(9, 2)))".data =
      ["String".data, "Array(Tuple(Date".data, "Int32".data, "Int32".data,
        "Decimal(9, 2)))".data] := by decide

example :
    specSplitTopLevel "String, Array(Tuple(Date, Int32, Int32, Decimal(9, 2)))".data =
      ["String".data, "Array(Tuple(Date, Int32, Int32, Decimal(9, 2)))".data] := by decide

/-! ## The Python value model

One constructor per Python runtime type that flows through the converters:
`None`, `bool`, `int`, `float`, `str`, `bytes`, `datetime.date`,
`datetime.datetime`, `uuid.UUID`, `decimal.Decimal`, `list`, `tuple`, `dict`.

- floats are modelled by their `repr` string (no claim depends on float
  arithmetic);
- bytes are modelled by their UTF-8 decoding (the code only ever decodes
  them with `decode("utf-8")`);
- `UUID` and `Decimal` are modelled by their `str` form;
- `ZoneInfo` timezones are modelled by their name;
- dict keys are strings (the only kind the embedded code produces or
  serialises). -/

/-- `datetime.date`. -/
structure PyDate where
  year : Nat
  month : Nat
  day : Nat
deriving DecidableEq, Repr

/-- `datetime.datetime`; `tz` is the `ZoneInfo` name, `Option.none` = naive. -/
structure PyDateTime where
  year : Nat
  month : Nat
  day : Nat
  hour : Nat
  minute : Nat
  second : Nat
  microsecond : Nat
  tz : Option Str
deriving DecidableEq, Repr

/-- A Python runtime value. -/
inductive PyValue where
  | none
  | bool (b : Bool)
  | int (n : Int)
  | float (r : Str)
  | str (s : Str)
  | bytes (s : Str)
  | pydate (d : PyDate)
  | pydatetime (d : PyDateTime)
  | uuid (s : Str)
  | decimal (s : Str)
  | list (xs : List PyValue)
  | tuple (xs : List PyValue)
  | dict (kvs : List (Str × PyValue))

compile_inductive% PyValue

/-! ## `_extract_base_type` and `_unwrap_wrappers`

Both loop/recurse peeling `Nullable(...)` / `LowCardinality(...)`; each step
removes at least 10 characters, so the input length is enough fuel.  Fuel is
used (rather than well-founded recursion) to keep every definition
kernel-reducible on closed inputs. -/

/-- `_extract_base_type` with explicit fuel. -/
def extract_base_type_fuel : Nat → Str → Str
  | 0, t => t
  | fuel + 1, t =>
      if "Nullable(".data.isPrefixOf t = true then
        extract_base_type_fuel fuel ((t.drop 9).dropLast)
      else if "LowCardinality(".data.isPrefixOf t = true then
        extract_base_type_fuel fuel ((t.drop 15).dropLast)
      else if t.contains '(' = true then t.takeWhile (fun c => c ≠ '(')
      else t

/-- `_extract_base_type` from `from_clickhouse.py`. -/
def extract_base_type (t : Str) : Str := extract_base_type_fuel t.length t

/-- Python `str.endswith(")")`. -/
def endsParen (u : Str) : Bool := u.getLast? = some ')'

/-- The `while True` loop of `_unwrap_wrappers`, with fuel.  The strip at loop
entry is applied by the caller / before each recursive call. -/
def unwrap_wrappers_fuel : Nat → Str → Str
  | 0, u => u
  | fuel + 1, u =>
      if "Nullable(".data.isPrefixOf u = true ∧ endsParen u = true then
        unwrap_wrappers_fuel fuel (pyStrip ((u.drop 9).dropLast))
      else if "LowCardinality(".data.isPrefixOf u = true ∧ endsParen u = true then
        unwrap_wrappers_fuel fuel (pyStrip ((u.drop 15).dropLast))
      else u

/-- `_unwrap_wrappers` from `from_clickhouse.py`. -/
def unwrap_wrappers (t : Str) : Str := unwrap_wrappers_fuel t.length (pyStrip t)

example : extract_base_type "Nullable(DateTime64(6, 'Europe/Sofia'))".data = "DateTime64".data := by
  decide
example : extract_base_type "LowCardinality(Nullable(String))".data = "String".data := by decide
example : unwrap_wrappers "Nullable(Tuple(String, UInt8))".data = "Tuple(String, UInt8)".data := by
  decide

/-! ## The `_DATETIME_TZ_RE` timezone regex

`re.compile(r"DateTime(?:64)?\(\s*(?:\d+\s*,\s*)?'([^']+)'\s*\)", re.IGNORECASE)`
used with `.search`.  The pattern is deterministic: the optional `64`, the
optional `\d+\s*,\s*` group and every `\s*`/`[^']+` repetition are each
forced by the character that follows, so a straight-line matcher is faithful
(see the argument in each step below).  `.search` tries every start
position left to right. -/

/-- Case-insensitive literal prefix consumption (the `re.IGNORECASE` flag;
the data here is ASCII). -/
def ciPre : Str → Str → Option Str
  | [], l => some l
  | _ :: _, [] => Option.none
  | p :: ps, c :: cs => if p.toLower = c.toLower then ciPre ps cs else Option.none

/-- Tail of the timezone regex after the closing quote: the capture must be
non-empty and `\s*\)` must follow. -/
def tzClose (cap rest : Str) : Option Str :=
  if cap = [] then Option.none
  else match rest.dropWhile isPyWs with
    | ')' :: _ => some cap
    | _ => Option.none

/-- The quoted capture `'([^']+)'\s*\)` of the timezone regex: the greedy
`[^']+` is cut at the first `'`. -/
def tzQuoted : Str → Option Str
  | '\'' :: r₉ =>
      (match r₉.dropWhile (fun c => c ≠ '\'') with
        | '\'' :: r₁₀ => tzClose (r₉.takeWhile (fun c => c ≠ '\'')) r₁₀
        | _ => Option.none)
  | _ => Option.none

/-- Try to match `_DATETIME_TZ_RE` at the start of `l`, returning the capture.
Each regex element is deterministic at its position: after `DateTime`, `64`
can only match if present (`(` is not a `6`); if a digit follows `\(`, the
optional `\d+\s*,\s*` group must match (a digit can never start `'`); the
greedy `[^']+` capture is cut at the first `'`. -/
def matchTzAt (l : Str) : Option Str :=
  match ciPre "datetime".data l with
  | Option.none => Option.none
  | some r₁ =>
    let r₂ := if "64".data.isPrefixOf r₁ = true then r₁.drop 2 else r₁
    match r₂ with
    | '(' :: r₃ =>
      let r₄ := r₃.dropWhile isPyWs
      let r₈? : Option Str :=
        match r₄ with
        | c :: _ =>
          if c.isDigit then
            match (r₄.dropWhile Char.isDigit).dropWhile isPyWs with
            | ',' :: r₇ => some (r₇.dropWhile isPyWs)
            | _ => Option.none
          else some r₄
        | [] => some r₄
      match r₈? with
      | Option.none => Option.none
      | some r₈ => tzQuoted r₈
    | _ => Option.none

/-- `re.search`: first match over all start positions, left to right. -/
def findTzAux : Str → Option Str
  | [] => Option.none
  | c :: rest =>
    match matchTzAt (c :: rest) with
    | some cap => some cap
    | Option.none => findTzAux rest

/-- `_extract_timezone` from `from_clickhouse.py`.  `ZoneInfo(tz)` is
modelled as always succeeding: the source's `except` branch (returning
`None` for names the host timezone database rejects) depends on data
outside the program. -/
def extract_timezone (t : Str) : Option Str := findTzAux (unwrap_wrappers t)

example : extract_timezone "DateTime('UTC')".data = some "UTC".data := by decide
example : extract_timezone "Nullable(DateTime64(6, 'Europe/Sofia'))".data =
    some "Europe/Sofia".data := by decide
example : extract_timezone "DateTime64(6)".data = Option.none := by decide
example : extract_timezone "DateTime".data = Option.none := by decide

/-! ## Value parsers used by `_parse_string_type` -/

/-- Digit string to number. -/
def digitsToNat (l : Str) : Nat := l.foldl (fun n c => n * 10 + (c.toNat - '0'.toNat)) 0

/-- Expect a single character. -/
def expectChar (c : Char) : Str → Option Str
  | d :: rest => if d = c then some rest else Option.none
  | [] => Option.none

/-- Exactly `k` digits (`%Y`-style strict field). -/
def parseFixedDigits (k : Nat) (l : Str) : Option (Nat × Str) :=
  let ds := l.take k
  if ds.length = k ∧ ds.all Char.isDigit then some (digitsToNat ds, l.drop k) else Option.none

/-- One or two digits (the lenient `%m`/`%d`/`%H`/`%M`/`%S` fields of
`strptime`; three or more consecutive digits fail either way). -/
def parseFlexDigits (l : Str) : Option (Nat × Str) :=
  let ds := l.takeWhile Char.isDigit
  if ds.length = 1 ∨ ds.length = 2 then some (digitsToNat ds, l.dropWhile Char.isDigit)
  else Option.none

def isLeapYear (y : Nat) : Bool := (y % 4 = 0 ∧ y % 100 ≠ 0) ∨ y % 400 = 0

def daysInMonth (y m : Nat) : Nat :=
  if m = 2 then (if isLeapYear y then 29 else 28)
  else if m = 4 ∨ m = 6 ∨ m = 9 ∨ m = 11 then 30
  else 31

/-- The range checks done by `strptime`'s field patterns together with the
`datetime`/`date` constructors. -/
def validDate (y m d : Nat) : Bool :=
  1 ≤ y ∧ y ≤ 9999 ∧ 1 ≤ m ∧ m ≤ 12 ∧ 1 ≤ d ∧ d ≤ daysInMonth y m

def validTime (h mi s : Nat) : Bool := h ≤ 23 ∧ mi ≤ 59 ∧ s ≤ 59

/-- Field part of `datetime.strptime(value, "%Y-%m-%d %H:%M:%S")`
(`_parse_datetime`): whole string consumed, fields in range. -/
def parse_datetime_fields (v : Str) : Option (Nat × Nat × Nat × Nat × Nat × Nat) := do
  let (y, r₁) ← parseFixedDigits 4 v
  let r₂ ← expectChar '-' r₁
  let (mo, r₃) ← parseFlexDigits r₂
  let r₄ ← expectChar '-' r₃
  let (d, r₅) ← parseFlexDigits r₄
  let r₆ ← expectChar ' ' r₅
  let (h, r₇) ← parseFlexDigits r₆
  let r₈ ← expectChar ':' r₇
  let (mi, r₉) ← parseFlexDigits r₈
  let r₁₀ ← expectChar ':' r₉
  let (s, r₁₁) ← parseFlexDigits r₁₀
  if r₁₁ = [] ∧ validDate y mo d ∧ validTime h mi s then pure (y, mo, d, h, mi, s)
  else Option.none

/-- `_parse_datetime` from `from_clickhouse.py` (raises → `Option.none`). -/
def parse_datetime (v : Str) : Option PyDateTime :=
  (parse_datetime_fields v).map fun (y, mo, d, h, mi, s) =>
    { year := y, month := mo, day := d, hour := h, minute := mi, second := s,
      microsecond := 0, tz := Option.none }

/-- Field part of `datetime.fromisoformat` as used for `DateTime64` values:
`YYYY-MM-DD[( |T)HH:MM:SS[.f{1..6}]]`.  This is the sub-grammar the server
emits; the further ISO forms `fromisoformat` accepts (offsets, `HH:MM`,
compact forms, comma fractions) are outside the model. -/
def parse_iso_fields (v : Str) : Option (Nat × Nat × Nat × Nat × Nat × Nat × Nat) := do
  let (y, r₁) ← parseFixedDigits 4 v
  let r₂ ← expectChar '-' r₁
  let (mo, r₃) ← parseFixedDigits 2 r₂
  let r₄ ← expectChar '-' r₃
  let (d, r₅) ← parseFixedDigits 2 r₄
  match r₅ with
  | [] => if validDate y mo d then pure (y, mo, d, 0, 0, 0, 0) else Option.none
  | sep :: r₆ =>
    if sep = ' ' ∨ sep = 'T' then do
      let (h, r₇) ← parseFixedDigits 2 r₆
      let r₈ ← expectChar ':' r₇
      let (mi, r₉) ← parseFixedDigits 2 r₈
      let r₁₀ ← expectChar ':' r₉
      let (s, r₁₁) ← parseFixedDigits 2 r₁₀
      if validDate y mo d ∧ validTime h mi s then
        match r₁₁ with
        | [] => pure (y, mo, d, h, mi, s, 0)
        | '.' :: fr =>
          let ds := fr.takeWhile Char.isDigit
          if ds ≠ [] ∧ ds.length ≤ 6 ∧ fr.dropWhile Char.isDigit = [] then
            pure (y, mo, d, h, mi, s, digitsToNat ds * 10 ^ (6 - ds.length))
          else Option.none
        | _ => Option.none
      else Option.none
    else Option.none

/-- `datetime.fromisoformat` (the `DateTime64` branch of
`_parse_string_type`). -/
def parse_datetime_iso (v : Str) : Option PyDateTime :=
  (parse_iso_fields v).map fun (y, mo, d, h, mi, s, us) =>
    { year := y, month := mo, day := d, hour := h, minute := mi, second := s,
      microsecond := us, tz := Option.none }

/-- `_parse_date`: `strptime(value, "%Y-%m-%d").date()`. -/
def parse_date (v : Str) : Option PyDate := do
  let (y, r₁) ← parseFixedDigits 4 v
  let r₂ ← expectChar '-' r₁
  let (mo, r₃) ← parseFlexDigits r₂
  let r₄ ← expectChar '-' r₃
  let (d, r₅) ← parseFlexDigits r₄
  if r₅ = [] ∧ validDate y mo d then pure { year := y, month := mo, day := d }
  else Option.none

def isHexDigit (c : Char) : Bool := c.isDigit ∨ ('a' ≤ c ∧ c ≤ 'f') ∨ ('A' ≤ c ∧ c ≤ 'F')

/-- `_parse_uuid`: `uuid.UUID(value)` on the canonical 8-4-4-4-12 form,
normalised to lowercase (the further accepted spellings — braces, URN,
no dashes — are outside the model). -/
def uuidOfStr (s : Str) : Option Str :=
  if s.length = 36 ∧
      (List.range 36).all (fun i =>
        if i = 8 ∨ i = 13 ∨ i = 18 ∨ i = 23 then s.getD i ' ' = '-'
        else isHexDigit (s.getD i ' ')) then
    some (s.map Char.toLower)
  else Option.none

/-- Acceptable plain `Decimal` literal: optional minus, digits without
spurious leading zeros, optional fraction.  Restricted to the forms
`str(Decimal(...))` reproduces verbatim; exponent forms and other accepted
spellings (normalised by `Decimal`) are outside the model. -/
def decimalCore (l : Str) : Bool :=
  match l.takeWhile Char.isDigit, l.dropWhile Char.isDigit with
  | [], _ => false
  | ds, [] => ds.length = 1 ∨ ds.headD ' ' ≠ '0'
  | ds, '.' :: fs => (ds.length = 1 ∨ ds.headD ' ' ≠ '0') ∧ fs ≠ [] ∧ fs.all Char.isDigit
  | _, _ => false

def decimalOfStr (s : Str) : Option Str :=
  match s with
  | '-' :: rest => if decimalCore rest then some s else Option.none
  | _ => if decimalCore s then some s else Option.none

/-- `_parse_decimal`: identity on `Decimal`, else `Decimal(value)`.
`Decimal` of a bool/int is exact; `Decimal` of a float (its binary
expansion) is outside the model; other types raise `TypeError`. -/
def parse_decimal : PyValue → Option PyValue
  | PyValue.decimal s => some (PyValue.decimal s)
  | PyValue.str s => (decimalOfStr s).map PyValue.decimal
  | PyValue.int n => some (PyValue.decimal (intRepr n))
  | PyValue.bool b => some (PyValue.decimal (if b then "1".data else "0".data))
  | _ => Option.none

/-- `_parse_string_type` from `from_clickhouse.py`. -/
def parse_string_type (s : Str) (baseType chType : Str) : Option PyValue :=
  let tz := if baseType = "DateTime".data ∨ baseType = "DateTime64".data
            then extract_timezone chType else Option.none
  if baseType = "DateTime".data then
    (parse_datetime s).map fun dt =>
      PyValue.pydatetime (match tz with | some z => { dt with tz := some z } | Option.none => dt)
  else if baseType = "DateTime64".data then
    (parse_datetime_iso s).map fun dt =>
      PyValue.pydatetime (match tz with | some z => { dt with tz := some z } | Option.none => dt)
  else if baseType = "Date".data then (parse_date s).map PyValue.pydate
  else if baseType = "UUID".data then (uuidOfStr s).map PyValue.uuid
  else some (PyValue.str s)

example : parse_datetime "2025-12-14 15:30:45".data =
    some { year := 2025, month := 12, day := 14, hour := 15, minute := 30, second := 45,
           microsecond := 0, tz := Option.none } := by decide
example : parse_datetime_iso "2025-12-14 15:30:45.123456".data =
    some { year := 2025, month := 12, day := 14, hour := 15, minute := 30, second := 45,
           microsecond := 123456, tz := Option.none } := by decide
example : parse_date "2025-02-30".data = Option.none := by decide

/-! ## `from_clickhouse`, `_parse_tuple`, `_parse_array`

Mutual recursion over the value (each recursive call goes to a structurally
smaller value), written with fuel; `3 * sizeOf v` bounds the call depth. -/

mutual

/-- `from_clickhouse` with fuel (`0` = out of fuel, unreachable at the fuel
the wrappers below supply). -/
def fcFuel : Nat → PyValue → Str → Option PyValue
  | 0, _, _ => Option.none
  | _ + 1, PyValue.none, _ => some PyValue.none
  | fuel + 1, v, chType =>
      let baseType := extract_base_type chType
      if "Decimal".data.isPrefixOf baseType = true then parse_decimal v
      else
        match v with
        | PyValue.str s => parse_string_type s baseType chType
        | PyValue.list xs =>
            if baseType = "Tuple".data then ptFuel fuel xs chType
            else if baseType = "Array".data then paFuel fuel xs chType
            else some (PyValue.list xs)
        | v' => some v'

/-- `_parse_tuple` with fuel. -/
def ptFuel : Nat → List PyValue → Str → Option PyValue
  | 0, _, _ => Option.none
  | fuel + 1, xs, chType =>
      let tupleType := unwrap_wrappers chType
      if "Tuple(".data.isPrefixOf tupleType = true then
        (zipFuel fuel xs (split_type_arguments ((tupleType.drop 6).dropLast))).map PyValue.tuple
      else some (PyValue.tuple xs)

/-- The `zip(value, element_types, strict=False)` conversion loop of
`_parse_tuple`: stop at the shorter list, first raise wins. -/
def zipFuel : Nat → List PyValue → List Str → Option (List PyValue)
  | 0, _, _ => Option.none
  | _ + 1, [], _ => some []
  | _ + 1, _ :: _, [] => some []
  | fuel + 1, x :: xs, t :: ts =>
      (fcFuel fuel x t).bind fun y => (zipFuel fuel xs ts).map fun ys => y :: ys

/-- `_parse_array` with fuel. -/
def paFuel : Nat → List PyValue → Str → Option PyValue
  | 0, _, _ => Option.none
  | fuel + 1, xs, chType =>
      if "Array(".data.isPrefixOf chType = true then
        (mapFuel fuel xs ((chType.drop 6).dropLast)).map PyValue.list
      else some (PyValue.list xs)

/-- The element conversion comprehension of `_parse_array`. -/
def mapFuel : Nat → List PyValue → Str → Option (List PyValue)
  | 0, _, _ => Option.none
  | _ + 1, [], _ => some []
  | fuel + 1, x :: xs, t =>
      (fcFuel fuel x t).bind fun y => (mapFuel fuel xs t).map fun ys => y :: ys

end

/-- `from_clickhouse` from `aiochlite/converters/from_clickhouse.py`. -/
def from_clickhouse (v : PyValue) (chType : Str) : Option PyValue :=
  fcFuel (3 * sizeOf v + 1) v chType

/-- `_parse_tuple` at its canonical fuel. -/
def parse_tuple (xs : List PyValue) (chType : Str) : Option PyValue :=
  ptFuel ((3 * sizeOf xs + 1) + 1) xs chType

/-- `_parse_array` at its canonical fuel. -/
def parse_array (xs : List PyValue) (chType : Str) : Option PyValue :=
  paFuel ((3 * sizeOf xs + 1) + 1) xs chType

/-- The tuple conversion loop at its canonical fuel. -/
def convZip (xs : List PyValue) (ts : List Str) : Option (List PyValue) :=
  zipFuel (3 * sizeOf xs + 1) xs ts

/-- The array conversion loop at its canonical fuel. -/
def convMap (xs : List PyValue) (t : Str) : Option (List PyValue) :=
  mapFuel (3 * sizeOf xs + 1) xs t

example : from_clickhouse (PyValue.str "2025-12-14".data) "LowCardinality(Date)".data =
    some (PyValue.pydate { year := 2025, month := 12, day := 14 }) := rfl
example : from_clickhouse (PyValue.str "123.456".data) "Decimal(10, 2)".data =
    some (PyValue.decimal "123.456".data) := rfl
example : from_clickhouse
    (PyValue.list [PyValue.int 1, PyValue.str "test".data, PyValue.str "2025-12-14".data])
    "Tuple(UInt32, String, Date)".data =
    some (PyValue.tuple [PyValue.int 1, PyValue.str "test".data,
      PyValue.pydate { year := 2025, month := 12, day := 14 }]) := rfl
example : from_clickhouse
    (PyValue.list [PyValue.str "2025-12-14".data, PyValue.str "2025-12-15".data])
    "Array(Date)".data =
    some (PyValue.list [PyValue.pydate { year := 2025, month := 12, day := 14 },
      PyValue.pydate { year := 2025, month := 12, day := 15 }]) := rfl
example : from_clickhouse PyValue.none "Nullable(DateTime)".data = some PyValue.none := rfl
/-! ## Fuel irrelevance for the `from_clickhouse` family

Any two fuels above the `3 * sizeOf` call-depth bound give the same result;
the wrappers above always supply such fuel. -/

theorem fcFamily_fuel_irrel :
    ∀ f₁ : Nat,
      (∀ f₂ v t, 3 * sizeOf v < f₁ → 3 * sizeOf v < f₂ →
        fcFuel f₁ v t = fcFuel f₂ v t) ∧
      (∀ f₂ xs t, 3 * sizeOf xs + 1 < f₁ → 3 * sizeOf xs + 1 < f₂ →
        ptFuel f₁ xs t = ptFuel f₂ xs t) ∧
      (∀ f₂ xs ts, 3 * sizeOf xs < f₁ → 3 * sizeOf xs < f₂ →
        zipFuel f₁ xs ts = zipFuel f₂ xs ts) ∧
      (∀ f₂ xs t, 3 * sizeOf xs + 1 < f₁ → 3 * sizeOf xs + 1 < f₂ →
        paFuel f₁ xs t = paFuel f₂ xs t) ∧
      (∀ f₂ xs t, 3 * sizeOf xs < f₁ → 3 * sizeOf xs < f₂ →
        mapFuel f₁ xs t = mapFuel f₂ xs t) := by
  intro f₁
  induction f₁ with
  | zero =>
      exact ⟨fun _ _ _ h => absurd h (Nat.not_lt_zero _),
             fun _ _ _ h => absurd h (Nat.not_lt_zero _),
             fun _ _ _ h => absurd h (Nat.not_lt_zero _),
             fun _ _ _ h => absurd h (Nat.not_lt_zero _),
             fun _ _ _ h => absurd h (Nat.not_lt_zero _)⟩
  | succ g ih =>
      obtain ⟨ihfc, ihpt, ihzip, ihpa, ihmap⟩ := ih
      refine ⟨?_, ?_, ?_, ?_, ?_⟩
      · intro f₂ v t h₁ h₂
        cases f₂ with
        | zero => exact absurd h₂ (Nat.not_lt_zero _)
        | succ g₂ =>
          cases v with
          | list xs =>
              have hb₁ : 3 * sizeOf xs + 1 < g := by simp at h₁; omega
              have hb₂ : 3 * sizeOf xs + 1 < g₂ := by simp at h₂; omega
              show (if "Decimal".data.isPrefixOf (extract_base_type t) = true then
                      parse_decimal (PyValue.list xs)
                    else if extract_base_type t = "Tuple".data then ptFuel g xs t
                    else if extract_base_type t = "Array".data then paFuel g xs t
                    else some (PyValue.list xs)) =
                   (if "Decimal".data.isPrefixOf (extract_base_type t) = true then
                      parse_decimal (PyValue.list xs)
                    else if extract_base_type t = "Tuple".data then ptFuel g₂ xs t
                    else if extract_base_type t = "Array".data then paFuel g₂ xs t
                    else some (PyValue.list xs))
              rw [ihpt g₂ xs t hb₁ hb₂, ihpa g₂ xs t hb₁ hb₂]
          | none => rfl
          | bool b => rfl
          | int n => rfl
          | float r => rfl
          | str s => rfl
          | bytes s => rfl
          | pydate d => rfl
          | pydatetime d => rfl
          | uuid s => rfl
          | decimal s => rfl
          | tuple xs => rfl
          | dict kvs => rfl
      · intro f₂ xs t h₁ h₂
        cases f₂ with
        | zero => exact absurd h₂ (Nat.not_lt_zero _)
        | succ g₂ =>
          have hb₁ : 3 * sizeOf xs < g := by omega
          have hb₂ : 3 * sizeOf xs < g₂ := by omega
          show (if "Tuple(".data.isPrefixOf (unwrap_wrappers t) = true then
                  (zipFuel g xs
                    (split_type_arguments (((unwrap_wrappers t).drop 6).dropLast))).map
                    PyValue.tuple
                else some (PyValue.tuple xs)) =
               (if "Tuple(".data.isPrefixOf (unwrap_wrappers t) = true then
                  (zipFuel g₂ xs
                    (split_type_arguments (((unwrap_wrappers t).drop 6).dropLast))).map
                    PyValue.tuple
                else some (PyValue.tuple xs))
          rw [ihzip g₂ xs _ hb₁ hb₂]
      · intro f₂ xs ts h₁ h₂
        cases f₂ with
        | zero => exact absurd h₂ (Nat.not_lt_zero _)
        | succ g₂ =>
          cases xs with
          | nil => rfl
          | cons x xs' =>
            cases ts with
            | nil => rfl
            | cons t ts' =>
              have hx : 3 * sizeOf x < g ∧ 3 * sizeOf x < g₂ := by
                constructor <;> simp at h₁ h₂ <;> omega
              have hxs : 3 * sizeOf xs' < g ∧ 3 * sizeOf xs' < g₂ := by
                constructor <;> simp at h₁ h₂ <;> omega
              show (fcFuel g x t).bind (fun y => (zipFuel g xs' ts').map fun ys => y :: ys) =
                   (fcFuel g₂ x t).bind (fun y => (zipFuel g₂ xs' ts').map fun ys => y :: ys)
              rw [ihfc g₂ x t hx.1 hx.2, ihzip g₂ xs' ts' hxs.1 hxs.2]
      · intro f₂ xs t h₁ h₂
        cases f₂ with
        | zero => exact absurd h₂ (Nat.not_lt_zero _)
        | succ g₂ =>
          have hb₁ : 3 * sizeOf xs < g := by omega
          have hb₂ : 3 * sizeOf xs < g₂ := by omega
          show (if "Array(".data.isPrefixOf t = true then
                  (mapFuel g xs ((t.drop 6).dropLast)).map PyValue.list
                else some (PyValue.list xs)) =
               (if "Array(".data.isPrefixOf t = true then
                  (mapFuel g₂ xs ((t.drop 6).dropLast)).map PyValue.list
                else some (PyValue.list xs))
          rw [ihmap g₂ xs _ hb₁ hb₂]
      · intro f₂ xs t h₁ h₂
        cases f₂ with
        | zero => exact absurd h₂ (Nat.not_lt_zero _)
        | succ g₂ =>
          cases xs with
          | nil => rfl
          | cons x xs' =>
            have hx : 3 * sizeOf x < g ∧ 3 * sizeOf x < g₂ := by
              constructor <;> simp at h₁ h₂ <;> omega
            have hxs : 3 * sizeOf xs' < g ∧ 3 * sizeOf xs' < g₂ := by
              constructor <;> simp at h₁ h₂ <;> omega
            show (fcFuel g x t).bind (fun y => (mapFuel g xs' t).map fun ys => y :: ys) =
                 (fcFuel g₂ x t).bind (fun y => (mapFuel g₂ xs' t).map fun ys => y :: ys)
            rw [ihfc g₂ x t hx.1 hx.2, ihmap g₂ xs' t hxs.1 hxs.2]

/-! ## Unfolding equations for `from_clickhouse` at canonical fuel -/

theorem from_clickhouse_none (t : Str) :
    from_clickhouse PyValue.none t = some PyValue.none := rfl

theorem from_clickhouse_str (s t : Str) :
    from_clickhouse (PyValue.str s) t =
      (if "Decimal".data.isPrefixOf (extract_base_type t) = true then
        parse_decimal (PyValue.str s)
      else parse_string_type s (extract_base_type t) t) := rfl

theorem from_clickhouse_list (xs : List PyValue) (t : Str) :
    from_clickhouse (PyValue.list xs) t =
      (if "Decimal".data.isPrefixOf (extract_base_type t) = true then
        parse_decimal (PyValue.list xs)
      else if extract_base_type t = "Tuple".data then parse_tuple xs t
      else if extract_base_type t = "Array".data then parse_array xs t
      else some (PyValue.list xs)) := by
  have h : from_clickhouse (PyValue.list xs) t =
      (if "Decimal".data.isPrefixOf (extract_base_type t) = true then
        parse_decimal (PyValue.list xs)
      else if extract_base_type t = "Tuple".data then
        ptFuel (3 * sizeOf (PyValue.list xs)) xs t
      else if extract_base_type t = "Array".data then
        paFuel (3 * sizeOf (PyValue.list xs)) xs t
      else some (PyValue.list xs)) := rfl
  rw [h, ((fcFamily_fuel_irrel (3 * sizeOf (PyValue.list xs))).2.1 ((3 * sizeOf xs + 1) + 1)
      xs t (by simp; omega) (by omega)),
    ((fcFamily_fuel_irrel (3 * sizeOf (PyValue.list xs))).2.2.2.1 ((3 * sizeOf xs + 1) + 1)
      xs t (by simp; omega) (by omega))]
  rfl

theorem parse_tuple_eq (xs : List PyValue) (t : Str) :
    parse_tuple xs t =
      (if "Tuple(".data.isPrefixOf (unwrap_wrappers t) = true then
        (convZip xs (split_type_arguments (((unwrap_wrappers t).drop 6).dropLast))).map
          PyValue.tuple
      else some (PyValue.tuple xs)) := rfl

theorem parse_array_eq (xs : List PyValue) (t : Str) :
    parse_array xs t =
      (if "Array(".data.isPrefixOf t = true then
        (convMap xs ((t.drop 6).dropLast)).map PyValue.list
      else some (PyValue.list xs)) := rfl

theorem convZip_nil (ts : List Str) : convZip [] ts = some [] := rfl

theorem convZip_nil_types (x : PyValue) (xs : List PyValue) :
    convZip (x :: xs) [] = some [] := rfl

theorem convZip_cons (x : PyValue) (xs : List PyValue) (t : Str) (ts : List Str) :
    convZip (x :: xs) (t :: ts) =
      (from_clickhouse x t).bind fun y => (convZip xs ts).map fun ys => y :: ys := by
  have h : convZip (x :: xs) (t :: ts) =
      (fcFuel (3 * sizeOf (x :: xs)) x t).bind fun y =>
        (zipFuel (3 * sizeOf (x :: xs)) xs ts).map fun ys => y :: ys := rfl
  rw [h, ((fcFamily_fuel_irrel (3 * sizeOf (x :: xs))).1 (3 * sizeOf x + 1) x t
      (by simp only [List.cons.sizeOf_spec]; omega) (by omega)),
    ((fcFamily_fuel_irrel (3 * sizeOf (x :: xs))).2.2.1 (3 * sizeOf xs + 1) xs ts
      (by simp only [List.cons.sizeOf_spec]; omega) (by omega))]
  rfl

theorem convMap_nil (t : Str) : convMap [] t = some [] := rfl

theorem convMap_cons (x : PyValue) (xs : List PyValue) (t : Str) :
    convMap (x :: xs) t =
      (from_clickhouse x t).bind fun y => (convMap xs t).map fun ys => y :: ys := by
  have h : convMap (x :: xs) t =
      (fcFuel (3 * sizeOf (x :: xs)) x t).bind fun y =>
        (mapFuel (3 * sizeOf (x :: xs)) xs t).map fun ys => y :: ys := rfl
  rw [h, ((fcFamily_fuel_irrel (3 * sizeOf (x :: xs))).1 (3 * sizeOf x + 1) x t
      (by simp only [List.cons.sizeOf_spec]; omega) (by omega)),
    ((fcFamily_fuel_irrel (3 * sizeOf (x :: xs))).2.2.2.2 (3 * sizeOf xs + 1) xs t
      (by simp only [List.cons.sizeOf_spec]; omega) (by omega))]
  rfl

/-- All constructors other than `PyValue.none`, `str`, `list` fall through
`from_clickhouse` to the `Decimal`-or-identity tail. -/
theorem from_clickhouse_default (v : PyValue) (t : Str)
    (hn : v ≠ PyValue.none) (hs : ∀ s, v ≠ PyValue.str s) (hl : ∀ xs, v ≠ PyValue.list xs) :
    from_clickhouse v t =
      (if "Decimal".data.isPrefixOf (extract_base_type t) = true then parse_decimal v
      else some v) := by
  cases v with
  | none => exact absurd rfl hn
  | str s => exact absurd rfl (hs s)
  | list xs => exact absurd rfl (hl xs)
  | bool b => rfl
  | int n => rfl
  | float r => rfl
  | bytes s => rfl
  | pydate d => rfl
  | pydatetime d => rfl
  | uuid s => rfl
  | decimal s => rfl
  | tuple xs => rfl
  | dict kvs => rfl

/-! ## `to_clickhouse.py` -/

/-- Zero-pad to width `w` (`strftime` field padding). -/
def pad (w n : Nat) : Str := List.replicate (w - (natRepr n).length) '0' ++ natRepr n

/-- `value.strftime("%Y-%m-%d")` on a date. -/
def fmtDate (d : PyDate) : Str :=
  pad 4 d.year ++ '-' :: (pad 2 d.month ++ '-' :: pad 2 d.day)

/-- `value.strftime("%Y-%m-%d %H:%M:%S")` on a datetime (drops microseconds
and timezone). -/
def fmtDateTimeHMS (d : PyDateTime) : Str :=
  pad 4 d.year ++ '-' :: (pad 2 d.month ++ '-' :: (pad 2 d.day ++ ' ' ::
    (pad 2 d.hour ++ ':' :: (pad 2 d.minute ++ ':' :: pad 2 d.second))))

/-- `_convert_special_type` from `to_clickhouse.py` (datetime is checked
before date, matching the subclass-sensitive `isinstance` order).  The
`str(value)` default is total here; for collections (which never reach the
fallback: every call site matches them first) the model returns `[]`. -/
def convert_special_type : PyValue → Str
  | PyValue.pydatetime d => fmtDateTimeHMS d
  | PyValue.pydate d => fmtDate d
  | PyValue.uuid s => s
  | PyValue.decimal s => s
  | PyValue.bytes s => s
  | PyValue.none => "None".data
  | PyValue.bool b => if b then "True".data else "False".data
  | PyValue.int n => intRepr n
  | PyValue.float r => r
  | PyValue.str s => s
  | _ => []

mutual

/-- `_prepare_for_json` from `to_clickhouse.py`, with fuel. -/
def prepFuel : Nat → PyValue → PyValue
  | 0, v => v
  | _ + 1, PyValue.none => PyValue.none
  | _ + 1, PyValue.bool b => PyValue.bool b
  | _ + 1, PyValue.int n => PyValue.int n
  | _ + 1, PyValue.float r => PyValue.float r
  | _ + 1, PyValue.str s => PyValue.str s
  | fuel + 1, PyValue.tuple xs => PyValue.tuple (prepListFuel fuel xs)
  | fuel + 1, PyValue.list xs => PyValue.list (prepListFuel fuel xs)
  | fuel + 1, PyValue.dict kvs => PyValue.dict (prepKVFuel fuel kvs)
  | _ + 1, v => PyValue.str (convert_special_type v)

def prepListFuel : Nat → List PyValue → List PyValue
  | 0, xs => xs
  | _ + 1, [] => []
  | fuel + 1, x :: xs => prepFuel fuel x :: prepListFuel fuel xs

def prepKVFuel : Nat → List (Str × PyValue) → List (Str × PyValue)
  | 0, kvs => kvs
  | _ + 1, [] => []
  | fuel + 1, kv :: kvs => (kv.1, prepFuel fuel kv.2) :: prepKVFuel fuel kvs

end

/-- `_prepare_for_json` at canonical fuel. -/
def prepare_for_json (v : PyValue) : PyValue := prepFuel (3 * sizeOf v + 1) v

mutual

/-- `_to_clickhouse_format` / `_format_collection` from `to_clickhouse.py`,
with fuel. -/
def tcfFuel : Nat → PyValue → Str
  | 0, _ => []
  | _ + 1, PyValue.none => "null".data
  | _ + 1, PyValue.bool b => if b then "true".data else "false".data
  | _ + 1, PyValue.int n => intRepr n
  | _ + 1, PyValue.float r => r
  | _ + 1, PyValue.str s => '\'' :: (s ++ ['\''])
  | fuel + 1, PyValue.tuple xs => '(' :: (pyJoin ",".data (tcfListFuel fuel xs) ++ [')'])
  | fuel + 1, PyValue.list xs => '[' :: (pyJoin ",".data (tcfListFuel fuel xs) ++ [']'])
  | fuel + 1, PyValue.dict kvs => '{' :: (pyJoin ",".data (tcfKVFuel fuel kvs) ++ ['}'])
  | _ + 1, v => convert_special_type v

def tcfListFuel : Nat → List PyValue → List Str
  | 0, _ => []
  | _ + 1, [] => []
  | fuel + 1, x :: xs => tcfFuel fuel x :: tcfListFuel fuel xs

def tcfKVFuel : Nat → List (Str × PyValue) → List Str
  | 0, _ => []
  | _ + 1, [] => []
  | fuel + 1, kv :: kvs =>
      ('\'' :: (kv.1 ++ '\'' :: ':' :: tcfFuel fuel kv.2)) :: tcfKVFuel fuel kvs

end

/-- `_to_clickhouse_format` at canonical fuel. -/
def to_ch_format (v : PyValue) : Str := tcfFuel (3 * sizeOf v + 1) v

/-- `to_clickhouse` from `aiochlite/converters/to_clickhouse.py`. -/
def to_clickhouse : PyValue → PyValue
  | PyValue.none => PyValue.str "NULL".data
  | PyValue.bool b => PyValue.int (if b then 1 else 0)
  | PyValue.int n => PyValue.int n
  | PyValue.float r => PyValue.float r
  | PyValue.str s => PyValue.str s
  | PyValue.list xs => PyValue.str (to_ch_format (prepare_for_json (PyValue.list xs)))
  | PyValue.tuple xs => PyValue.str (to_ch_format (prepare_for_json (PyValue.tuple xs)))
  | PyValue.dict kvs => PyValue.str (to_ch_format (prepare_for_json (PyValue.dict kvs)))
  | v => PyValue.str (convert_special_type v)

example : to_clickhouse (PyValue.list [PyValue.int 1, PyValue.int 2, PyValue.int 3]) =
    PyValue.str "[1,2,3]".data := rfl
example : to_clickhouse (PyValue.tuple [PyValue.str "a".data, PyValue.str "b".data]) =
    PyValue.str "('a','b')".data := rfl
example : to_clickhouse (PyValue.dict [("nums".data, PyValue.list [PyValue.int 1, PyValue.int 2])]) =
    PyValue.str "\x7b'nums':[1,2]\x7d".data := rfl
example : to_clickhouse (PyValue.pydatetime
    { year := 2025, month := 12, day := 14, hour := 15, minute := 30, second := 45,
      microsecond := 0, tz := Option.none }) = PyValue.str "2025-12-14 15:30:45".data := rfl
example : to_clickhouse (PyValue.list [PyValue.list [PyValue.int 1, PyValue.int 2],
    PyValue.list [PyValue.int 3, PyValue.int 4]]) = PyValue.str "[[1,2],[3,4]]".data := rfl
example : to_clickhouse (PyValue.bool true) = PyValue.int 1 := rfl
example : to_clickhouse PyValue.none = PyValue.str "NULL".data := rfl
example : to_clickhouse (PyValue.bytes "hello".data) = PyValue.str "hello".data := rfl

/-! ## `to_json.py` -/

/-- `_convert_special_type` from `to_json.py` (no explicit `UUID`/`Decimal`
branch there: both fall to the `str(value)` default, which reproduces their
text).  Collections never reach it (matched first at the call site). -/
def tj_convert_special : PyValue → Str
  | PyValue.pydatetime d => fmtDateTimeHMS d
  | PyValue.pydate d => fmtDate d
  | PyValue.bytes s => s
  | PyValue.uuid s => s
  | PyValue.decimal s => s
  | PyValue.none => "None".data
  | PyValue.bool b => if b then "True".data else "False".data
  | PyValue.int n => intRepr n
  | PyValue.float r => r
  | PyValue.str s => s
  | _ => []

mutual

/-- `_convert_value` from `to_json.py`, with fuel. -/
def tjFuel : Nat → PyValue → PyValue
  | 0, v => v
  | _ + 1, PyValue.none => PyValue.none
  | _ + 1, PyValue.bool b => PyValue.bool b
  | _ + 1, PyValue.int n => PyValue.int n
  | _ + 1, PyValue.float r => PyValue.float r
  | _ + 1, PyValue.str s => PyValue.str s
  | fuel + 1, PyValue.tuple xs => PyValue.tuple (tjListFuel fuel xs)
  | fuel + 1, PyValue.list xs => PyValue.list (tjListFuel fuel xs)
  | fuel + 1, PyValue.dict kvs => PyValue.dict (tjKVFuel fuel kvs)
  | _ + 1, v => PyValue.str (tj_convert_special v)

def tjListFuel : Nat → List PyValue → List PyValue
  | 0, xs => xs
  | _ + 1, [] => []
  | fuel + 1, x :: xs => tjFuel fuel x :: tjListFuel fuel xs

def tjKVFuel : Nat → List (Str × PyValue) → List (Str × PyValue)
  | 0, kvs => kvs
  | _ + 1, [] => []
  | fuel + 1, kv :: kvs => (kv.1, tjFuel fuel kv.2) :: tjKVFuel fuel kvs

end

/-- `_convert_value` at canonical fuel. -/
def tj_convert (v : PyValue) : PyValue := tjFuel (3 * sizeOf v + 1) v

def hexDigit (n : Nat) : Char :=
  if n < 10 then Char.ofNat ('0'.toNat + n) else Char.ofNat ('a'.toNat + n - 10)

/-- JSON string escaping of one character (`json.dumps` with
`ensure_ascii=False`): `"` and `\` and control characters are escaped,
everything else passes through. -/
def jsonEscapeChar (c : Char) : Str :=
  if c = '"' then ['\\', '"']
  else if c = '\\' then ['\\', '\\']
  else if c = '\n' then ['\\', 'n']
  else if c = '\t' then ['\\', 't']
  else if c = '\r' then ['\\', 'r']
  else if c = '\x08' then ['\\', 'b']
  else if c = '\x0c' then ['\\', 'f']
  else if c.toNat < 32 then
    ['\\', 'u', '0', '0', hexDigit (c.toNat / 16), hexDigit (c.toNat % 16)]
  else [c]

/-- JSON string literal. -/
def jsonQuote (s : Str) : Str := '"' :: ((s.map jsonEscapeChar).flatten ++ ['"'])

mutual

/-- `json.dumps(converted, ensure_ascii=False, separators=(",", ":"))`, with
fuel.  Tuples serialise as arrays; values `json` cannot serialise raise
`TypeError` (`Option.none`).  Floats are rendered by their stored `repr`. -/
def dumpsFuel : Nat → PyValue → Option Str
  | 0, _ => Option.none
  | _ + 1, PyValue.none => some "null".data
  | _ + 1, PyValue.bool b => some (if b then "true".data else "false".data)
  | _ + 1, PyValue.int n => some (intRepr n)
  | _ + 1, PyValue.float r => some r
  | _ + 1, PyValue.str s => some (jsonQuote s)
  | fuel + 1, PyValue.list xs =>
      (dumpsListFuel fuel xs).map fun ps => '[' :: (pyJoin ",".data ps ++ [']'])
  | fuel + 1, PyValue.tuple xs =>
      (dumpsListFuel fuel xs).map fun ps => '[' :: (pyJoin ",".data ps ++ [']'])
  | fuel + 1, PyValue.dict kvs =>
      (dumpsKVFuel fuel kvs).map fun ps => '{' :: (pyJoin ",".data ps ++ ['}'])
  | _ + 1, _ => Option.none

def dumpsListFuel : Nat → List PyValue → Option (List Str)
  | 0, _ => Option.none
  | _ + 1, [] => some []
  | fuel + 1, x :: xs =>
      (dumpsFuel fuel x).bind fun p => (dumpsListFuel fuel xs).map fun ps => p :: ps

def dumpsKVFuel : Nat → List (Str × PyValue) → Option (List Str)
  | 0, _ => Option.none
  | _ + 1, [] => some []
  | fuel + 1, kv :: kvs =>
      (dumpsFuel fuel kv.2).bind fun p =>
        (dumpsKVFuel fuel kvs).map fun ps => (jsonQuote kv.1 ++ ':' :: p) :: ps

end

/-- `json.dumps` at canonical fuel. -/
def json_dumps (v : PyValue) : Option Str := dumpsFuel (3 * sizeOf v + 1) v

/-- `to_json` from `aiochlite/converters/to_json.py`. -/
def to_json (v : PyValue) : Option Str := json_dumps (tj_convert v)

example : to_json (PyValue.dict [("id".data, PyValue.int 1),
    ("name".data, PyValue.str "Alice".data)]) =
    some "\x7b\"id\":1,\"name\":\"Alice\"\x7d".data := rfl
example : to_json (PyValue.list [PyValue.int 1, PyValue.int 2, PyValue.int 3]) =
    some "[1,2,3]".data := rfl
example : to_json (PyValue.dict [("created_at".data, PyValue.pydatetime
    { year := 2025, month := 12, day := 14, hour := 15, minute := 30, second := 45,
      microsecond := 0, tz := Option.none })]) =
    some "\x7b\"created_at\":\"2025-12-14 15:30:45\"\x7d".data := rfl
example : to_json (PyValue.dict [("coordinates".data,
    PyValue.tuple [PyValue.int 10, PyValue.int 20])]) =
    some "\x7b\"coordinates\":[10,20]\x7d".data := rfl
example : to_json (PyValue.pydate { year := 2025, month := 12, day := 14 }) =
    some "\"2025-12-14\"".data := rfl

/-! ## `core/client.py` -/

/-- Modelled from the spec: the external table of §3 ("an ordered column
schema (name + type string), and an iterable of rows (tuples of host
values)"); `aiochlite/core/models.py` is not among the sources.
`build_query_params` reads only the schema, called `structure` in the
source (`schema` here: `structure` is a Lean keyword). -/
structure ExternalTable where
  schema : List (Str × Str)
  data : List (List PyValue)

/-- Modelled from the spec: the eager row of §3 ("a decoded row is an
ordered sequence of values, one per column", indexable by position and by
column name); `aiochlite/core/models.py` is not among the sources.  Only the
constructor shape `Row(names, converted_values)` used by `parse_row` is
modelled. -/
structure Row where
  names : List Str
  values : List PyValue

/-- The configuration stored by `ChClientCore.__init__` (defaults: user
`"default"`, password `""`, database `"default"`, compression off). -/
structure ChClientCore where
  user : Str
  password : Str
  database : Str
  enable_compression : Bool

/-- `ChClientCore.build_headers`: each header is added only when the
configured value is truthy (non-empty). -/
def build_headers (c : ChClientCore) : List (Str × Str) :=
  (if c.user = [] then [] else [("X-ClickHouse-User".data, c.user)]) ++
  (if c.password = [] then [] else [("X-ClickHouse-Key".data, c.password)])

/-- Python dict assignment `d[k] = v` on an insertion-ordered dict: replace
in place when the key exists, else append. -/
def dictInsert (d : List (Str × PyValue)) (k : Str) (v : PyValue) : List (Str × PyValue) :=
  if d.any (fun kv => kv.1 = k) then d.map (fun kv => if kv.1 = k then (k, v) else kv)
  else d ++ [(k, v)]

/-- `", ".join(f"{column} {column_type}" for column, column_type in
external_table.structure)`. -/
def structureStr (t : ExternalTable) : Str :=
  pyJoin ", ".data (t.schema.map fun ct => ct.1 ++ ' ' :: ct.2)

/-- `ChClientCore.build_query_params`.  The dict literal, the conditional
compression key, the `param_` loop, the `settings` update and the external
table loop, in source order. -/
def build_query_params (c : ChClientCore) (params : List (Str × PyValue))
    (settings : List (Str × PyValue)) (external_tables : List (Str × ExternalTable)) :
    List (Str × PyValue) :=
  let d₀ : List (Str × PyValue) :=
    [("database".data, PyValue.str c.database),
     ("output_format_json_quote_decimals".data, PyValue.str "1".data)]
  let d₁ :=
    if c.enable_compression then
      dictInsert d₀ "enable_http_compression".data (PyValue.str "1".data)
    else d₀
  let d₂ :=
    params.foldl (fun d kv => dictInsert d ("param_".data ++ kv.1) (to_clickhouse kv.2)) d₁
  let d₃ := settings.foldl (fun d kv => dictInsert d kv.1 kv.2) d₂
  external_tables.foldl
    (fun d nt =>
      dictInsert
        (dictInsert d (nt.1 ++ "_format".data) (PyValue.str "JSONCompactEachRow".data))
        (nt.1 ++ "_structure".data) (PyValue.str (structureStr nt.2)))
    d₃

/-! ### `json.loads` (for `parse_row`)

A recursive-descent parser for the JSON subset the row pipeline consumes.
Not modelled: `\uXXXX` escapes, and the `repr` normalisation Python applies
to float literals (no claim touches either). -/

def jsonWs (c : Char) : Bool := c = ' ' ∨ c = '\t' ∨ c = '\n' ∨ c = '\r'

/-- Number literal: strict JSON grammar; a literal with a fraction or
exponent becomes a float modelled by its source text. -/
def jpNumber (l : Str) : Option (PyValue × Str) :=
  let signed : Bool × Str := match l with | '-' :: r => (true, r) | _ => (false, l)
  let ds := signed.2.takeWhile Char.isDigit
  if ds = [] then Option.none
  else if 1 < ds.length ∧ ds.headD ' ' = '0' then Option.none
  else
    let rest := signed.2.dropWhile Char.isDigit
    match rest with
    | '.' :: r₁ =>
        let fs := r₁.takeWhile Char.isDigit
        if fs = [] then Option.none
        else
          let intfrac : Str := (if signed.1 then ['-'] else []) ++ ds ++ '.' :: fs
          match r₁.dropWhile Char.isDigit with
          | 'e' :: r₂ | 'E' :: r₂ =>
              let esigned : Str × Str :=
                match r₂ with
                | '+' :: r₃ => (['+'], r₃)
                | '-' :: r₃ => (['-'], r₃)
                | _ => ([], r₂)
              let es := esigned.2.takeWhile Char.isDigit
              if es = [] then Option.none
              else some (PyValue.float (intfrac ++ 'e' :: (esigned.1 ++ es)),
                esigned.2.dropWhile Char.isDigit)
          | r₂ => some (PyValue.float intfrac, r₂)
    | 'e' :: _ | 'E' :: _ =>
        some (PyValue.float ((if signed.1 then ['-'] else []) ++ ds), rest)
    | _ => some (PyValue.int (if signed.1 then -(digitsToNat ds : Int) else digitsToNat ds), rest)

mutual

/-- One JSON value, positioned at its first character. -/
def jpValue : Nat → Str → Option (PyValue × Str)
  | 0, _ => Option.none
  | fuel + 1, l =>
    match l with
    | 'n' :: 'u' :: 'l' :: 'l' :: r => some (PyValue.none, r)
    | 't' :: 'r' :: 'u' :: 'e' :: r => some (PyValue.bool true, r)
    | 'f' :: 'a' :: 'l' :: 's' :: 'e' :: r => some (PyValue.bool false, r)
    | '"' :: r => (jpString fuel r).map fun (sr : Str × Str) => (PyValue.str sr.1, sr.2)
    | '[' :: r =>
        (match r.dropWhile jsonWs with
         | ']' :: r₂ => some (PyValue.list [], r₂)
         | r₁ => (jpElems fuel r₁).map fun xr => (PyValue.list xr.1, xr.2))
    | '{' :: r =>
        (match r.dropWhile jsonWs with
         | '}' :: r₂ => some (PyValue.dict [], r₂)
         | r₁ => (jpMembers fuel r₁).map fun kr => (PyValue.dict kr.1, kr.2))
    | _ => jpNumber l

/-- Array elements, positioned at an element. -/
def jpElems : Nat → Str → Option (List PyValue × Str)
  | 0, _ => Option.none
  | fuel + 1, l =>
      (jpValue fuel l).bind fun vr =>
        match vr.2.dropWhile jsonWs with
        | ',' :: r₂ => (jpElems fuel (r₂.dropWhile jsonWs)).map fun xr => (vr.1 :: xr.1, xr.2)
        | ']' :: r₂ => some ([vr.1], r₂)
        | _ => Option.none

/-- Object members, positioned at a key. -/
def jpMembers : Nat → Str → Option (List (Str × PyValue) × Str)
  | 0, _ => Option.none
  | fuel + 1, l =>
      match l with
      | '"' :: r =>
        (jpString fuel r).bind fun kr =>
          match kr.2.dropWhile jsonWs with
          | ':' :: r₂ =>
            (jpValue fuel (r₂.dropWhile jsonWs)).bind fun vr =>
              match vr.2.dropWhile jsonWs with
              | ',' :: r₄ =>
                  (jpMembers fuel (r₄.dropWhile jsonWs)).map fun mr =>
                    ((kr.1, vr.1) :: mr.1, mr.2)
              | '}' :: r₄ => some ([(kr.1, vr.1)], r₄)
              | _ => Option.none
          | _ => Option.none
      | _ => Option.none

/-- String body after the opening quote; bare control characters are
invalid (`strict=True`). -/
def jpString : Nat → Str → Option (Str × Str)
  | 0, _ => Option.none
  | fuel + 1, l =>
      match l with
      | '"' :: r => some ([], r)
      | '\\' :: e :: r =>
          ((match e with
            | '"' => some '"' | '\\' => some '\\' | '/' => some '/'
            | 'n' => some '\n' | 't' => some '\t' | 'r' => some '\r'
            | 'b' => some '\x08' | 'f' => some '\x0c'
            | _ => Option.none) : Option Char).bind fun c =>
            (jpString fuel r).map fun (sr : Str × Str) => (c :: sr.1, sr.2)
      | c :: r =>
          if c.toNat < 32 then Option.none
          else (jpString fuel r).map fun (sr : Str × Str) => (c :: sr.1, sr.2)
      | [] => Option.none

end

/-- `json.loads`: one document, surrounded by whitespace only. -/
def json_loads (l : Str) : Option PyValue :=
  match jpValue (2 * l.length + 2) (l.dropWhile jsonWs) with
  | some vr => if vr.2.dropWhile jsonWs = [] then some vr.1 else Option.none
  | Option.none => Option.none

example : json_loads "[1, \"alice\", null]".data =
    some (PyValue.list [PyValue.int 1, PyValue.str "alice".data, PyValue.none]) := rfl
example : json_loads "  ".data = Option.none := rfl
example : json_loads "\x7b\"a\": [true, false]\x7d".data =
    some (PyValue.dict [("a".data, PyValue.list [PyValue.bool true, PyValue.bool false])]) := rfl

/-- What `zip` iterates over a decoded JSON document (`json.loads` output is
null/bool/int/float/str/list/dict): lists and tuples yield their elements,
strings their characters, dicts their keys; the rest raise `TypeError`. -/
def pyIter : PyValue → Option (List PyValue)
  | PyValue.list xs => some xs
  | PyValue.tuple xs => some xs
  | PyValue.str s => some (s.map fun c => PyValue.str [c])
  | PyValue.dict kvs => some (kvs.map fun kv => PyValue.str kv.1)
  | _ => Option.none

/-- The exceptions `parse_row` can raise. -/
inductive PyErr where
  | jsonDecodeError
  | typeError
  | valueError
  | converterError
deriving DecidableEq, Repr

/-- `[convert(val) for val, convert in zip(values, converters, strict=True)]`:
pairs are consumed in order (an earlier converter exception wins) and a
length mismatch raises `ValueError`. -/
def convertValues : List PyValue → List (PyValue → Option PyValue) → Except PyErr (List PyValue)
  | [], [] => Except.ok []
  | [], _ :: _ => Except.error PyErr.valueError
  | _ :: _, [] => Except.error PyErr.valueError
  | v :: vs, c :: cs =>
      match c v with
      | Option.none => Except.error PyErr.converterError
      | some w => (convertValues vs cs).map fun ws => w :: ws

/-- `ChClientCore.parse_row`.  The converters are the per-column functions
produced by `build_converters` (whose `converter_for_ch_type` source is not
under `src/`); they are taken as abstract fallible functions. -/
def parse_row (names : List Str) (converters : List (PyValue → Option PyValue)) (line : Str) :
    Except PyErr (Option Row) :=
  if pyStrip line ≠ [] then
    match json_loads line with
    | Option.none => Except.error PyErr.jsonDecodeError
    | some doc =>
      match pyIter doc with
      | Option.none => Except.error PyErr.typeError
      | some vs => (convertValues vs converters).map fun ws => some (Row.mk names ws)
  else Except.ok Option.none

/-! ## Fuel irrelevance and unfolding equations for `_prepare_for_json` -/

theorem prepFamily_fuel_irrel :
    ∀ f₁ : Nat,
      (∀ f₂ v, 3 * sizeOf v < f₁ → 3 * sizeOf v < f₂ → prepFuel f₁ v = prepFuel f₂ v) ∧
      (∀ f₂ xs, 3 * sizeOf xs < f₁ → 3 * sizeOf xs < f₂ →
        prepListFuel f₁ xs = prepListFuel f₂ xs) ∧
      (∀ f₂ kvs, 3 * sizeOf kvs < f₁ → 3 * sizeOf kvs < f₂ →
        prepKVFuel f₁ kvs = prepKVFuel f₂ kvs) := by
  intro f₁
  induction f₁ with
  | zero =>
      exact ⟨fun _ _ h => absurd h (Nat.not_lt_zero _),
             fun _ _ h => absurd h (Nat.not_lt_zero _),
             fun _ _ h => absurd h (Nat.not_lt_zero _)⟩
  | succ g ih =>
      obtain ⟨ihv, ihl, ihk⟩ := ih
      refine ⟨?_, ?_, ?_⟩
      · intro f₂ v h₁ h₂
        cases f₂ with
        | zero => exact absurd h₂ (Nat.not_lt_zero _)
        | succ g₂ =>
          cases v with
          | tuple xs =>
              show PyValue.tuple (prepListFuel g xs) = PyValue.tuple (prepListFuel g₂ xs)
              rw [ihl g₂ xs (by simp at h₁; omega) (by simp at h₂; omega)]
          | list xs =>
              show PyValue.list (prepListFuel g xs) = PyValue.list (prepListFuel g₂ xs)
              rw [ihl g₂ xs (by simp at h₁; omega) (by simp at h₂; omega)]
          | dict kvs =>
              show PyValue.dict (prepKVFuel g kvs) = PyValue.dict (prepKVFuel g₂ kvs)
              rw [ihk g₂ kvs (by simp at h₁; omega) (by simp at h₂; omega)]
          | none => rfl
          | bool b => rfl
          | int n => rfl
          | float r => rfl
          | str s => rfl
          | bytes s => rfl
          | pydate d => rfl
          | pydatetime d => rfl
          | uuid s => rfl
          | decimal s => rfl
      · intro f₂ xs h₁ h₂
        cases f₂ with
        | zero => exact absurd h₂ (Nat.not_lt_zero _)
        | succ g₂ =>
          cases xs with
          | nil => rfl
          | cons x xs' =>
              show prepFuel g x :: prepListFuel g xs' = prepFuel g₂ x :: prepListFuel g₂ xs'
              rw [ihv g₂ x (by simp at h₁; omega) (by simp at h₂; omega),
                ihl g₂ xs' (by simp at h₁; omega) (by simp at h₂; omega)]
      · intro f₂ kvs h₁ h₂
        cases f₂ with
        | zero => exact absurd h₂ (Nat.not_lt_zero _)
        | succ g₂ =>
          cases kvs with
          | nil => rfl
          | cons kv kvs' =>
              obtain ⟨k, v⟩ := kv
              show (k, prepFuel g v) :: prepKVFuel g kvs' =
                   (k, prepFuel g₂ v) :: prepKVFuel g₂ kvs'
              rw [ihv g₂ v (by simp at h₁; omega) (by simp at h₂; omega),
                ihk g₂ kvs' (by simp at h₁; omega) (by simp at h₂; omega)]

/-- `_prepare_for_json` element map at canonical fuel. -/
def prepList (xs : List PyValue) : List PyValue := prepListFuel (3 * sizeOf xs + 1) xs

/-- `_prepare_for_json` dict map at canonical fuel. -/
def prepKV (kvs : List (Str × PyValue)) : List (Str × PyValue) :=
  prepKVFuel (3 * sizeOf kvs + 1) kvs

theorem prepare_for_json_list (xs : List PyValue) :
    prepare_for_json (PyValue.list xs) = PyValue.list (prepList xs) := by
  show PyValue.list (prepListFuel (3 * sizeOf (PyValue.list xs)) xs) = _
  rw [(prepFamily_fuel_irrel (3 * sizeOf (PyValue.list xs))).2.1 (3 * sizeOf xs + 1) xs
    (by simp only [PyValue.list.sizeOf_spec]; omega) (by omega)]
  rfl

theorem prepare_for_json_tuple (xs : List PyValue) :
    prepare_for_json (PyValue.tuple xs) = PyValue.tuple (prepList xs) := by
  show PyValue.tuple (prepListFuel (3 * sizeOf (PyValue.tuple xs)) xs) = _
  rw [(prepFamily_fuel_irrel (3 * sizeOf (PyValue.tuple xs))).2.1 (3 * sizeOf xs + 1) xs
    (by simp only [PyValue.tuple.sizeOf_spec]; omega) (by omega)]
  rfl

theorem prepare_for_json_dict (kvs : List (Str × PyValue)) :
    prepare_for_json (PyValue.dict kvs) = PyValue.dict (prepKV kvs) := by
  show PyValue.dict (prepKVFuel (3 * sizeOf (PyValue.dict kvs)) kvs) = _
  rw [(prepFamily_fuel_irrel (3 * sizeOf (PyValue.dict kvs))).2.2 (3 * sizeOf kvs + 1) kvs
    (by simp only [PyValue.dict.sizeOf_spec]; omega) (by omega)]
  rfl

theorem prepList_nil : prepList [] = [] := rfl

theorem prepList_cons (x : PyValue) (xs : List PyValue) :
    prepList (x :: xs) = prepare_for_json x :: prepList xs := by
  show prepFuel (3 * sizeOf (x :: xs)) x :: prepListFuel (3 * sizeOf (x :: xs)) xs = _
  rw [(prepFamily_fuel_irrel (3 * sizeOf (x :: xs))).1 (3 * sizeOf x + 1) x
    (by simp only [List.cons.sizeOf_spec]; omega) (by omega),
    (prepFamily_fuel_irrel (3 * sizeOf (x :: xs))).2.1 (3 * sizeOf xs + 1) xs
    (by simp only [List.cons.sizeOf_spec]; omega) (by omega)]
  rfl

theorem prepKV_nil : prepKV [] = [] := rfl

theorem prepKV_cons (k : Str) (v : PyValue) (kvs : List (Str × PyValue)) :
    prepKV ((k, v) :: kvs) = (k, prepare_for_json v) :: prepKV kvs := by
  show (k, prepFuel (3 * sizeOf ((k, v) :: kvs)) v) ::
      prepKVFuel (3 * sizeOf ((k, v) :: kvs)) kvs = _
  rw [(prepFamily_fuel_irrel (3 * sizeOf ((k, v) :: kvs))).1 (3 * sizeOf v + 1) v
    (by simp only [List.cons.sizeOf_spec, Prod.mk.sizeOf_spec]; omega) (by omega),
    (prepFamily_fuel_irrel (3 * sizeOf ((k, v) :: kvs))).2.2 (3 * sizeOf kvs + 1) kvs
    (by simp only [List.cons.sizeOf_spec]; omega) (by omega)]
  rfl

/-! ## Fuel irrelevance and unfolding equations for `_to_clickhouse_format` -/

theorem tcfFamily_fuel_irrel :
    ∀ f₁ : Nat,
      (∀ f₂ v, 3 * sizeOf v < f₁ → 3 * sizeOf v < f₂ → tcfFuel f₁ v = tcfFuel f₂ v) ∧
      (∀ f₂ xs, 3 * sizeOf xs < f₁ → 3 * sizeOf xs < f₂ →
        tcfListFuel f₁ xs = tcfListFuel f₂ xs) ∧
      (∀ f₂ kvs, 3 * sizeOf kvs < f₁ → 3 * sizeOf kvs < f₂ →
        tcfKVFuel f₁ kvs = tcfKVFuel f₂ kvs) := by
  intro f₁
  induction f₁ with
  | zero =>
      exact ⟨fun _ _ h => absurd h (Nat.not_lt_zero _),
             fun _ _ h => absurd h (Nat.not_lt_zero _),
             fun _ _ h => absurd h (Nat.not_lt_zero _)⟩
  | succ g ih =>
      obtain ⟨ihv, ihl, ihk⟩ := ih
      refine ⟨?_, ?_, ?_⟩
      · intro f₂ v h₁ h₂
        cases f₂ with
        | zero => exact absurd h₂ (Nat.not_lt_zero _)
        | succ g₂ =>
          cases v with
          | tuple xs =>
              show '(' :: (pyJoin ",".data (tcfListFuel g xs) ++ [')']) =
                   '(' :: (pyJoin ",".data (tcfListFuel g₂ xs) ++ [')'])
              rw [ihl g₂ xs (by simp at h₁; omega) (by simp at h₂; omega)]
          | list xs =>
              show '[' :: (pyJoin ",".data (tcfListFuel g xs) ++ [']']) =
                   '[' :: (pyJoin ",".data (tcfListFuel g₂ xs) ++ [']'])
              rw [ihl g₂ xs (by simp at h₁; omega) (by simp at h₂; omega)]
          | dict kvs =>
              show '\x7b' :: (pyJoin ",".data (tcfKVFuel g kvs) ++ ['\x7d']) =
                   '\x7b' :: (pyJoin ",".data (tcfKVFuel g₂ kvs) ++ ['\x7d'])
              rw [ihk g₂ kvs (by simp at h₁; omega) (by simp at h₂; omega)]
          | none => rfl
          | bool b => rfl
          | int n => rfl
          | float r => rfl
          | str s => rfl
          | bytes s => rfl
          | pydate d => rfl
          | pydatetime d => rfl
          | uuid s => rfl
          | decimal s => rfl
      · intro f₂ xs h₁ h₂
        cases f₂ with
        | zero => exact absurd h₂ (Nat.not_lt_zero _)
        | succ g₂ =>
          cases xs with
          | nil => rfl
          | cons x xs' =>
              show tcfFuel g x :: tcfListFuel g xs' = tcfFuel g₂ x :: tcfListFuel g₂ xs'
              rw [ihv g₂ x (by simp at h₁; omega) (by simp at h₂; omega),
                ihl g₂ xs' (by simp at h₁; omega) (by simp at h₂; omega)]
      · intro f₂ kvs h₁ h₂
        cases f₂ with
        | zero => exact absurd h₂ (Nat.not_lt_zero _)
        | succ g₂ =>
          cases kvs with
          | nil => rfl
          | cons kv kvs' =>
              obtain ⟨k, v⟩ := kv
              show ('\'' :: (k ++ '\'' :: ':' :: tcfFuel g v)) :: tcfKVFuel g kvs' =
                   ('\'' :: (k ++ '\'' :: ':' :: tcfFuel g₂ v)) :: tcfKVFuel g₂ kvs'
              rw [ihv g₂ v (by simp at h₁; omega) (by simp at h₂; omega),
                ihk g₂ kvs' (by simp at h₁; omega) (by simp at h₂; omega)]

/-- `_format_collection` element rendering at canonical fuel. -/
def tcfList (xs : List PyValue) : List Str := tcfListFuel (3 * sizeOf xs + 1) xs

/-- `_format_collection` dict rendering at canonical fuel. -/
def tcfKV (kvs : List (Str × PyValue)) : List Str := tcfKVFuel (3 * sizeOf kvs + 1) kvs

theorem to_ch_format_str (s : Str) : to_ch_format (PyValue.str s) = '\'' :: (s ++ ['\'']) := rfl

theorem to_ch_format_none : to_ch_format PyValue.none = "null".data := rfl

theorem to_ch_format_list (xs : List PyValue) :
    to_ch_format (PyValue.list xs) = '[' :: (pyJoin ",".data (tcfList xs) ++ [']']) := by
  show '[' :: (pyJoin ",".data (tcfListFuel (3 * sizeOf (PyValue.list xs)) xs) ++ [']']) = _
  rw [(tcfFamily_fuel_irrel (3 * sizeOf (PyValue.list xs))).2.1 (3 * sizeOf xs + 1) xs
    (by simp only [PyValue.list.sizeOf_spec]; omega) (by omega)]
  rfl

theorem to_ch_format_tuple (xs : List PyValue) :
    to_ch_format (PyValue.tuple xs) = '(' :: (pyJoin ",".data (tcfList xs) ++ [')']) := by
  show '(' :: (pyJoin ",".data (tcfListFuel (3 * sizeOf (PyValue.tuple xs)) xs) ++ [')']) = _
  rw [(tcfFamily_fuel_irrel (3 * sizeOf (PyValue.tuple xs))).2.1 (3 * sizeOf xs + 1) xs
    (by simp only [PyValue.tuple.sizeOf_spec]; omega) (by omega)]
  rfl

theorem to_ch_format_dict (kvs : List (Str × PyValue)) :
    to_ch_format (PyValue.dict kvs) = '\x7b' :: (pyJoin ",".data (tcfKV kvs) ++ ['\x7d']) := by
  show '\x7b' :: (pyJoin ",".data (tcfKVFuel (3 * sizeOf (PyValue.dict kvs)) kvs) ++ ['\x7d']) = _
  rw [(tcfFamily_fuel_irrel (3 * sizeOf (PyValue.dict kvs))).2.2 (3 * sizeOf kvs + 1) kvs
    (by simp only [PyValue.dict.sizeOf_spec]; omega) (by omega)]
  rfl

theorem tcfList_nil : tcfList [] = [] := rfl

theorem tcfList_cons (x : PyValue) (xs : List PyValue) :
    tcfList (x :: xs) = to_ch_format x :: tcfList xs := by
  show tcfFuel (3 * sizeOf (x :: xs)) x :: tcfListFuel (3 * sizeOf (x :: xs)) xs = _
  rw [(tcfFamily_fuel_irrel (3 * sizeOf (x :: xs))).1 (3 * sizeOf x + 1) x
    (by simp only [List.cons.sizeOf_spec]; omega) (by omega),
    (tcfFamily_fuel_irrel (3 * sizeOf (x :: xs))).2.1 (3 * sizeOf xs + 1) xs
    (by simp only [List.cons.sizeOf_spec]; omega) (by omega)]
  rfl

theorem tcfKV_nil : tcfKV [] = [] := rfl

theorem tcfKV_cons (k : Str) (v : PyValue) (kvs : List (Str × PyValue)) :
    tcfKV ((k, v) :: kvs) = ('\'' :: (k ++ '\'' :: ':' :: to_ch_format v)) :: tcfKV kvs := by
  show ('\'' :: (k ++ '\'' :: ':' :: tcfFuel (3 * sizeOf ((k, v) :: kvs)) v)) ::
      tcfKVFuel (3 * sizeOf ((k, v) :: kvs)) kvs = _
  rw [(tcfFamily_fuel_irrel (3 * sizeOf ((k, v) :: kvs))).1 (3 * sizeOf v + 1) v
    (by simp only [List.cons.sizeOf_spec, Prod.mk.sizeOf_spec]; omega) (by omega),
    (tcfFamily_fuel_irrel (3 * sizeOf ((k, v) :: kvs))).2.2 (3 * sizeOf kvs + 1) kvs
    (by simp only [List.cons.sizeOf_spec]; omega) (by omega)]
  rfl

/-! ## Fuel irrelevance and unfolding equations for `to_json.py`'s
`_convert_value` and `json.dumps` -/

theorem tjFamily_fuel_irrel :
    ∀ f₁ : Nat,
      (∀ f₂ v, 3 * sizeOf v < f₁ → 3 * sizeOf v < f₂ → tjFuel f₁ v = tjFuel f₂ v) ∧
      (∀ f₂ xs, 3 * sizeOf xs < f₁ → 3 * sizeOf xs < f₂ →
        tjListFuel f₁ xs = tjListFuel f₂ xs) ∧
      (∀ f₂ kvs, 3 * sizeOf kvs < f₁ → 3 * sizeOf kvs < f₂ →
        tjKVFuel f₁ kvs = tjKVFuel f₂ kvs) := by
  intro f₁
  induction f₁ with
  | zero =>
      exact ⟨fun _ _ h => absurd h (Nat.not_lt_zero _),
             fun _ _ h => absurd h (Nat.not_lt_zero _),
             fun _ _ h => absurd h (Nat.not_lt_zero _)⟩
  | succ g ih =>
      obtain ⟨ihv, ihl, ihk⟩ := ih
      refine ⟨?_, ?_, ?_⟩
      · intro f₂ v h₁ h₂
        cases f₂ with
        | zero => exact absurd h₂ (Nat.not_lt_zero _)
        | succ g₂ =>
          cases v with
          | tuple xs =>
              show PyValue.tuple (tjListFuel g xs) = PyValue.tuple (tjListFuel g₂ xs)
              rw [ihl g₂ xs (by simp at h₁; omega) (by simp at h₂; omega)]
          | list xs =>
              show PyValue.list (tjListFuel g xs) = PyValue.list (tjListFuel g₂ xs)
              rw [ihl g₂ xs (by simp at h₁; omega) (by simp at h₂; omega)]
          | dict kvs =>
              show PyValue.dict (tjKVFuel g kvs) = PyValue.dict (tjKVFuel g₂ kvs)
              rw [ihk g₂ kvs (by simp at h₁; omega) (by simp at h₂; omega)]
          | none => rfl
          | bool b => rfl
          | int n => rfl
          | float r => rfl
          | str s => rfl
          | bytes s => rfl
          | pydate d => rfl
          | pydatetime d => rfl
          | uuid s => rfl
          | decimal s => rfl
      · intro f₂ xs h₁ h₂
        cases f₂ with
        | zero => exact absurd h₂ (Nat.not_lt_zero _)
        | succ g₂ =>
          cases xs with
          | nil => rfl
          | cons x xs' =>
              show tjFuel g x :: tjListFuel g xs' = tjFuel g₂ x :: tjListFuel g₂ xs'
              rw [ihv g₂ x (by simp at h₁; omega) (by simp at h₂; omega),
                ihl g₂ xs' (by simp at h₁; omega) (by simp at h₂; omega)]
      · intro f₂ kvs h₁ h₂
        cases f₂ with
        | zero => exact absurd h₂ (Nat.not_lt_zero _)
        | succ g₂ =>
          cases kvs with
          | nil => rfl
          | cons kv kvs' =>
              obtain ⟨k, v⟩ := kv
              show (k, tjFuel g v) :: tjKVFuel g kvs' = (k, tjFuel g₂ v) :: tjKVFuel g₂ kvs'
              rw [ihv g₂ v (by simp at h₁; omega) (by simp at h₂; omega),
                ihk g₂ kvs' (by simp at h₁; omega) (by simp at h₂; omega)]

/-- `_convert_value` element map at canonical fuel. -/
def tjList (xs : List PyValue) : List PyValue := tjListFuel (3 * sizeOf xs + 1) xs

/-- `_convert_value` dict map at canonical fuel. -/
def tjKV (kvs : List (Str × PyValue)) : List (Str × PyValue) :=
  tjKVFuel (3 * sizeOf kvs + 1) kvs

theorem tj_convert_list (xs : List PyValue) :
    tj_convert (PyValue.list xs) = PyValue.list (tjList xs) := by
  show PyValue.list (tjListFuel (3 * sizeOf (PyValue.list xs)) xs) = _
  rw [(tjFamily_fuel_irrel (3 * sizeOf (PyValue.list xs))).2.1 (3 * sizeOf xs + 1) xs
    (by simp only [PyValue.list.sizeOf_spec]; omega) (by omega)]
  rfl

theorem tj_convert_tuple (xs : List PyValue) :
    tj_convert (PyValue.tuple xs) = PyValue.tuple (tjList xs) := by
  show PyValue.tuple (tjListFuel (3 * sizeOf (PyValue.tuple xs)) xs) = _
  rw [(tjFamily_fuel_irrel (3 * sizeOf (PyValue.tuple xs))).2.1 (3 * sizeOf xs + 1) xs
    (by simp only [PyValue.tuple.sizeOf_spec]; omega) (by omega)]
  rfl

theorem tj_convert_dict (kvs : List (Str × PyValue)) :
    tj_convert (PyValue.dict kvs) = PyValue.dict (tjKV kvs) := by
  show PyValue.dict (tjKVFuel (3 * sizeOf (PyValue.dict kvs)) kvs) = _
  rw [(tjFamily_fuel_irrel (3 * sizeOf (PyValue.dict kvs))).2.2 (3 * sizeOf kvs + 1) kvs
    (by simp only [PyValue.dict.sizeOf_spec]; omega) (by omega)]
  rfl

theorem tjList_nil : tjList [] = [] := rfl

theorem tjList_cons (x : PyValue) (xs : List PyValue) :
    tjList (x :: xs) = tj_convert x :: tjList xs := by
  show tjFuel (3 * sizeOf (x :: xs)) x :: tjListFuel (3 * sizeOf (x :: xs)) xs = _
  rw [(tjFamily_fuel_irrel (3 * sizeOf (x :: xs))).1 (3 * sizeOf x + 1) x
    (by simp only [List.cons.sizeOf_spec]; omega) (by omega),
    (tjFamily_fuel_irrel (3 * sizeOf (x :: xs))).2.1 (3 * sizeOf xs + 1) xs
    (by simp only [List.cons.sizeOf_spec]; omega) (by omega)]
  rfl

theorem tjKV_nil : tjKV [] = [] := rfl

theorem tjKV_cons (k : Str) (v : PyValue) (kvs : List (Str × PyValue)) :
    tjKV ((k, v) :: kvs) = (k, tj_convert v) :: tjKV kvs := by
  show (k, tjFuel (3 * sizeOf ((k, v) :: kvs)) v) ::
      tjKVFuel (3 * sizeOf ((k, v) :: kvs)) kvs = _
  rw [(tjFamily_fuel_irrel (3 * sizeOf ((k, v) :: kvs))).1 (3 * sizeOf v + 1) v
    (by simp only [List.cons.sizeOf_spec, Prod.mk.sizeOf_spec]; omega) (by omega),
    (tjFamily_fuel_irrel (3 * sizeOf ((k, v) :: kvs))).2.2 (3 * sizeOf kvs + 1) kvs
    (by simp only [List.cons.sizeOf_spec]; omega) (by omega)]
  rfl

theorem dumpsFamily_fuel_irrel :
    ∀ f₁ : Nat,
      (∀ f₂ v, 3 * sizeOf v < f₁ → 3 * sizeOf v < f₂ → dumpsFuel f₁ v = dumpsFuel f₂ v) ∧
      (∀ f₂ xs, 3 * sizeOf xs < f₁ → 3 * sizeOf xs < f₂ →
        dumpsListFuel f₁ xs = dumpsListFuel f₂ xs) ∧
      (∀ f₂ kvs, 3 * sizeOf kvs < f₁ → 3 * sizeOf kvs < f₂ →
        dumpsKVFuel f₁ kvs = dumpsKVFuel f₂ kvs) := by
  intro f₁
  induction f₁ with
  | zero =>
      exact ⟨fun _ _ h => absurd h (Nat.not_lt_zero _),
             fun _ _ h => absurd h (Nat.not_lt_zero _),
             fun _ _ h => absurd h (Nat.not_lt_zero _)⟩
  | succ g ih =>
      obtain ⟨ihv, ihl, ihk⟩ := ih
      refine ⟨?_, ?_, ?_⟩
      · intro f₂ v h₁ h₂
        cases f₂ with
        | zero => exact absurd h₂ (Nat.not_lt_zero _)
        | succ g₂ =>
          cases v with
          | tuple xs =>
              show (dumpsListFuel g xs).map (fun ps => '[' :: (pyJoin ",".data ps ++ [']'])) =
                   (dumpsListFuel g₂ xs).map (fun ps => '[' :: (pyJoin ",".data ps ++ [']']))
              rw [ihl g₂ xs (by simp at h₁; omega) (by simp at h₂; omega)]
          | list xs =>
              show (dumpsListFuel g xs).map (fun ps => '[' :: (pyJoin ",".data ps ++ [']'])) =
                   (dumpsListFuel g₂ xs).map (fun ps => '[' :: (pyJoin ",".data ps ++ [']']))
              rw [ihl g₂ xs (by simp at h₁; omega) (by simp at h₂; omega)]
          | dict kvs =>
              show (dumpsKVFuel g kvs).map (fun ps => '\x7b' :: (pyJoin ",".data ps ++ ['\x7d'])) =
                   (dumpsKVFuel g₂ kvs).map (fun ps => '\x7b' :: (pyJoin ",".data ps ++ ['\x7d']))
              rw [ihk g₂ kvs (by simp at h₁; omega) (by simp at h₂; omega)]
          | none => rfl
          | bool b => rfl
          | int n => rfl
          | float r => rfl
          | str s => rfl
          | bytes s => rfl
          | pydate d => rfl
          | pydatetime d => rfl
          | uuid s => rfl
          | decimal s => rfl
      · intro f₂ xs h₁ h₂
        cases f₂ with
        | zero => exact absurd h₂ (Nat.not_lt_zero _)
        | succ g₂ =>
          cases xs with
          | nil => rfl
          | cons x xs' =>
              show (dumpsFuel g x).bind (fun p => (dumpsListFuel g xs').map fun ps => p :: ps) =
                   (dumpsFuel g₂ x).bind (fun p => (dumpsListFuel g₂ xs').map fun ps => p :: ps)
              rw [ihv g₂ x (by simp at h₁; omega) (by simp at h₂; omega),
                ihl g₂ xs' (by simp at h₁; omega) (by simp at h₂; omega)]
      · intro f₂ kvs h₁ h₂
        cases f₂ with
        | zero => exact absurd h₂ (Nat.not_lt_zero _)
        | succ g₂ =>
          cases kvs with
          | nil => rfl
          | cons kv kvs' =>
              obtain ⟨k, v⟩ := kv
              show (dumpsFuel g v).bind
                    (fun p => (dumpsKVFuel g kvs').map fun ps => (jsonQuote k ++ ':' :: p) :: ps) =
                   (dumpsFuel g₂ v).bind
                    (fun p => (dumpsKVFuel g₂ kvs').map fun ps => (jsonQuote k ++ ':' :: p) :: ps)
              rw [ihv g₂ v (by simp at h₁; omega) (by simp at h₂; omega),
                ihk g₂ kvs' (by simp at h₁; omega) (by simp at h₂; omega)]

/-- `json.dumps` over array elements at canonical fuel. -/
def dumpsSeq (xs : List PyValue) : Option (List Str) := dumpsListFuel (3 * sizeOf xs + 1) xs

/-- `json.dumps` over object members at canonical fuel. -/
def dumpsMembers (kvs : List (Str × PyValue)) : Option (List Str) :=
  dumpsKVFuel (3 * sizeOf kvs + 1) kvs

theorem json_dumps_list (xs : List PyValue) :
    json_dumps (PyValue.list xs) =
      (dumpsSeq xs).map fun ps => '[' :: (pyJoin ",".data ps ++ [']']) := by
  show (dumpsListFuel (3 * sizeOf (PyValue.list xs)) xs).map
      (fun ps => '[' :: (pyJoin ",".data ps ++ [']'])) = _
  rw [(dumpsFamily_fuel_irrel (3 * sizeOf (PyValue.list xs))).2.1 (3 * sizeOf xs + 1) xs
    (by simp only [PyValue.list.sizeOf_spec]; omega) (by omega)]
  rfl

theorem json_dumps_tuple (xs : List PyValue) :
    json_dumps (PyValue.tuple xs) =
      (dumpsSeq xs).map fun ps => '[' :: (pyJoin ",".data ps ++ [']']) := by
  show (dumpsListFuel (3 * sizeOf (PyValue.tuple xs)) xs).map
      (fun ps => '[' :: (pyJoin ",".data ps ++ [']'])) = _
  rw [(dumpsFamily_fuel_irrel (3 * sizeOf (PyValue.tuple xs))).2.1 (3 * sizeOf xs + 1) xs
    (by simp only [PyValue.tuple.sizeOf_spec]; omega) (by omega)]
  rfl

theorem json_dumps_dict (kvs : List (Str × PyValue)) :
    json_dumps (PyValue.dict kvs) =
      (dumpsMembers kvs).map fun ps => '\x7b' :: (pyJoin ",".data ps ++ ['\x7d']) := by
  show (dumpsKVFuel (3 * sizeOf (PyValue.dict kvs)) kvs).map
      (fun ps => '\x7b' :: (pyJoin ",".data ps ++ ['\x7d'])) = _
  rw [(dumpsFamily_fuel_irrel (3 * sizeOf (PyValue.dict kvs))).2.2 (3 * sizeOf kvs + 1) kvs
    (by simp only [PyValue.dict.sizeOf_spec]; omega) (by omega)]
  rfl

theorem dumpsSeq_nil : dumpsSeq [] = some [] := rfl

theorem dumpsSeq_cons (x : PyValue) (xs : List PyValue) :
    dumpsSeq (x :: xs) =
      (json_dumps x).bind fun p => (dumpsSeq xs).map fun ps => p :: ps := by
  show (dumpsFuel (3 * sizeOf (x :: xs)) x).bind
      (fun p => (dumpsListFuel (3 * sizeOf (x :: xs)) xs).map fun ps => p :: ps) = _
  rw [(dumpsFamily_fuel_irrel (3 * sizeOf (x :: xs))).1 (3 * sizeOf x + 1) x
    (by simp only [List.cons.sizeOf_spec]; omega) (by omega),
    (dumpsFamily_fuel_irrel (3 * sizeOf (x :: xs))).2.1 (3 * sizeOf xs + 1) xs
    (by simp only [List.cons.sizeOf_spec]; omega) (by omega)]
  rfl

theorem dumpsMembers_nil : dumpsMembers [] = some [] := rfl

theorem dumpsMembers_cons (k : Str) (v : PyValue) (kvs : List (Str × PyValue)) :
    dumpsMembers ((k, v) :: kvs) =
      (json_dumps v).bind fun p =>
        (dumpsMembers kvs).map fun ps => (jsonQuote k ++ ':' :: p) :: ps := by
  show (dumpsFuel (3 * sizeOf ((k, v) :: kvs)) v).bind
      (fun p => (dumpsKVFuel (3 * sizeOf ((k, v) :: kvs)) kvs).map
        fun ps => (jsonQuote k ++ ':' :: p) :: ps) = _
  rw [(dumpsFamily_fuel_irrel (3 * sizeOf ((k, v) :: kvs))).1 (3 * sizeOf v + 1) v
    (by simp only [List.cons.sizeOf_spec, Prod.mk.sizeOf_spec]; omega) (by omega),
    (dumpsFamily_fuel_irrel (3 * sizeOf ((k, v) :: kvs))).2.2 (3 * sizeOf kvs + 1) kvs
    (by simp only [List.cons.sizeOf_spec]; omega) (by omega)]
  rfl

/-! ## Claim C1: top-level comma splitting -/

/-- C1: the claim fails on the code and the code contradicts its own
docstring ("ignores commas inside parentheses").  On the repository's own
nested-argument test input, the regex `,(?![^()]*\))` splits at the commas
inside `Array(Tuple(...))` — a comma whose next parenthesis character is a
`(` splits regardless of depth — while the spec's top-level rule keeps the
group whole; the two sides are computed and differ. -/
theorem split_type_arguments_regex_depth_bug :
    split_type_arguments "String, Array(Tuple(Date, Int32, Int32, Decimal(9, 2)))".data =
      ["String".data, "Array(Tuple(Date".data, "Int32".data, "Int32".data,
        "Decimal(9, 2)))".data] ∧
    specSplitTopLevel "String, Array(Tuple(Date, Int32, Int32, Decimal(9, 2)))".data =
      ["String".data, "Array(Tuple(Date, Int32, Int32, Decimal(9, 2)))".data] ∧
    split_type_arguments "String, Array(Tuple(Date, Int32, Int32, Decimal(9, 2)))".data ≠
      specSplitTopLevel "String, Array(Tuple(Date, Int32, Int32, Decimal(9, 2)))".data :=
  ⟨by decide, by decide, by decide⟩

/-! ## Claim C2: string rendering of bound parameters -/

/-- The escaping the spec demands inside a single-quoted rendered string:
backslash-escape every single quote and backslash, pass the rest through. -/
def specEscapeQuoted (s : Str) : Str :=
  (s.map fun c => if c = '\'' ∨ c = '\\' then ['\\', c] else [c]).flatten

/-- C2: the claim fails on the code at the host value `["a'b"]`: the
rendered literal keeps the inner quote unescaped (`['a'b']`, not the
spec-escaped `['a\'b']`), and a top-level string is not enclosed in quotes
at all (the repository's own test asserts `to_clickhouse("hello") ==
"hello"`). -/
theorem to_clickhouse_string_escaping_counterexample :
    to_clickhouse (PyValue.list [PyValue.str "a'b".data]) = PyValue.str "['a'b']".data ∧
    '[' :: '\'' :: (specEscapeQuoted "a'b".data ++ ['\'', ']']) = "['a\\'b']".data ∧
    "['a'b']".data ≠ "['a\\'b']".data ∧
    to_clickhouse (PyValue.str "hello".data) = PyValue.str "hello".data ∧
    "hello".data ≠ '\'' :: ("hello".data ++ ['\'']) :=
  ⟨rfl, by decide, by decide, rfl, by decide⟩

theorem prepare_for_json_str (s : Str) : prepare_for_json (PyValue.str s) = PyValue.str s := rfl

/-- C2 (amended): a string bound as a whole parameter passes through
unchanged (unquoted); a string nested in a list, tuple or map value is
enclosed in single quotes with every character — including quotes and
backslashes — passed through verbatim, unescaped. -/
theorem to_clickhouse_string_rendering :
    (∀ s : Str, to_clickhouse (PyValue.str s) = PyValue.str s) ∧
    (∀ s : Str, to_ch_format (PyValue.str s) = '\'' :: (s ++ ['\''])) ∧
    (∀ s : Str, to_clickhouse (PyValue.list [PyValue.str s]) =
      PyValue.str ('[' :: '\'' :: (s ++ ['\'', ']']))) ∧
    (∀ s : Str, to_clickhouse (PyValue.tuple [PyValue.str s]) =
      PyValue.str ('(' :: '\'' :: (s ++ ['\'', ')']))) ∧
    (∀ k s : Str, to_clickhouse (PyValue.dict [(k, PyValue.str s)]) =
      PyValue.str ('\x7b' :: '\'' :: (k ++ '\'' :: ':' :: '\'' :: (s ++ ['\'', '\x7d'])))) := by
  refine ⟨fun s => rfl, fun s => rfl, fun s => ?_, fun s => ?_, fun k s => ?_⟩
  · show PyValue.str (to_ch_format (prepare_for_json (PyValue.list [PyValue.str s]))) = _
    rw [prepare_for_json_list, prepList_cons, prepList_nil, prepare_for_json_str,
      to_ch_format_list, tcfList_cons, tcfList_nil, to_ch_format_str]
    show PyValue.str ('[' :: (('\'' :: (s ++ ['\''])) ++ [']'])) = _
    simp
  · show PyValue.str (to_ch_format (prepare_for_json (PyValue.tuple [PyValue.str s]))) = _
    rw [prepare_for_json_tuple, prepList_cons, prepList_nil, prepare_for_json_str,
      to_ch_format_tuple, tcfList_cons, tcfList_nil, to_ch_format_str]
    show PyValue.str ('(' :: (('\'' :: (s ++ ['\''])) ++ [')'])) = _
    simp
  · show PyValue.str (to_ch_format (prepare_for_json (PyValue.dict [(k, PyValue.str s)]))) = _
    rw [prepare_for_json_dict, prepKV_cons, prepKV_nil, prepare_for_json_str,
      to_ch_format_dict, tcfKV_cons, tcfKV_nil, to_ch_format_str]
    show PyValue.str ('\x7b' :: (('\'' :: (k ++ '\'' :: ':' :: '\'' :: (s ++ ['\'']))) ++
      ['\x7d'])) = _
    simp

/-! ## Claim C5: rendering of null parameters -/

/-- C5: the claim fails on the code for nested nulls: inside a collection
`None` renders as lowercase `"null"`, not the claimed `"NULL"`. -/
theorem to_clickhouse_nested_null_counterexample :
    to_clickhouse (PyValue.list [PyValue.none]) = PyValue.str "[null]".data ∧
    "[null]".data ≠ "[NULL]".data :=
  ⟨rfl, by decide⟩

/-- C5 (amended): a null bound as the whole parameter renders as `"NULL"`;
a null nested inside an array, tuple or map renders as `"null"` (the
`_to_clickhouse_format` branch every nested value goes through, shown on
each collection kind). -/
theorem to_clickhouse_null_rendering :
    to_clickhouse PyValue.none = PyValue.str "NULL".data ∧
    prepare_for_json PyValue.none = PyValue.none ∧
    to_ch_format PyValue.none = "null".data ∧
    to_clickhouse (PyValue.list [PyValue.none]) = PyValue.str "[null]".data ∧
    to_clickhouse (PyValue.tuple [PyValue.none]) = PyValue.str "(null)".data ∧
    to_clickhouse (PyValue.dict [("k".data, PyValue.none)]) =
      PyValue.str "\x7b'k':null\x7d".data :=
  ⟨rfl, rfl, rfl, rfl, rfl, rfl⟩

/-! ## Claim C9: authentication headers -/

/-- C9: the claim fails on the code for the default configuration: with the
default empty password (`password=""` is falsy) `build_headers` omits
`X-ClickHouse-Key` entirely. -/
theorem build_headers_empty_password_counterexample :
    build_headers ⟨"default".data, [], "default".data, false⟩ =
      [("X-ClickHouse-User".data, "default".data)] ∧
    List.lookup "X-ClickHouse-Key".data
      (build_headers ⟨"default".data, [], "default".data, false⟩) = Option.none :=
  ⟨rfl, by decide⟩

/-- C9 (amended): whenever the configured user and password are both
non-empty, `build_headers` returns exactly the two headers
`X-ClickHouse-User ↦ user` and `X-ClickHouse-Key ↦ password`; an empty
user or password omits its header (see the counterexample). -/
theorem build_headers_nonempty (u p d : Str) (e : Bool) (hu : u ≠ []) (hp : p ≠ []) :
    build_headers { user := u, password := p, database := d, enable_compression := e } =
      [("X-ClickHouse-User".data, u), ("X-ClickHouse-Key".data, p)] := by
  unfold build_headers
  simp [hu, hp]

/-- Witness for the amended C9 theorem at a concrete configuration. -/
theorem build_headers_nonempty_witness :
    build_headers ⟨"default".data, "secret".data, "default".data, true⟩ =
      [("X-ClickHouse-User".data, "default".data), ("X-ClickHouse-Key".data, "secret".data)] :=
  build_headers_nonempty "default".data "secret".data "default".data true
    (by decide) (by decide)

/-! ## Claim C7: query-string keys -/

/-- Inserting a fresh key into a Python dict appends it. -/
theorem dictInsert_not_mem (d : List (Str × PyValue)) (k : Str) (v : PyValue)
    (h : k ∉ d.map Prod.fst) : dictInsert d k v = d ++ [(k, v)] := by
  unfold dictInsert
  rw [if_neg]
  intro hany
  rw [List.any_eq_true] at hany
  obtain ⟨kv, hkv, hk⟩ := hany
  exact h (List.mem_map.mpr ⟨kv, hkv, of_decide_eq_true hk⟩)

/-- The query-string entries the claim lists for the bound parameters. -/
def paramEntries (ps : List (Str × PyValue)) : List (Str × PyValue) :=
  ps.map fun kv => ("param_".data ++ kv.1, to_clickhouse kv.2)

/-- The query-string entries the claim lists for the external tables. -/
def tableEntries (ts : List (Str × ExternalTable)) : List (Str × PyValue) :=
  ts.flatMap fun nt =>
    [(nt.1 ++ "_format".data, PyValue.str "JSONCompactEachRow".data),
     (nt.1 ++ "_structure".data, PyValue.str (structureStr nt.2))]

/-- The full mapping the claim describes, in insertion order. -/
def expectedQueryParams (c : ChClientCore) (ps : List (Str × PyValue))
    (ts : List (Str × ExternalTable)) : List (Str × PyValue) :=
  [("database".data, PyValue.str c.database),
   ("output_format_json_quote_decimals".data, PyValue.str "1".data)] ++
  (if c.enable_compression then [("enable_http_compression".data, PyValue.str "1".data)]
   else []) ++
  paramEntries ps ++ tableEntries ts

theorem foldl_param_inserts (ps : List (Str × PyValue)) :
    ∀ d : List (Str × PyValue), ((d ++ paramEntries ps).map Prod.fst).Nodup →
      ps.foldl (fun d kv => dictInsert d ("param_".data ++ kv.1) (to_clickhouse kv.2)) d =
        d ++ paramEntries ps := by
  induction ps with
  | nil => intro d _; simp [paramEntries]
  | cons p ps' ih =>
      intro d hnd
      have hpe : paramEntries (p :: ps') =
          ("param_".data ++ p.1, to_clickhouse p.2) :: paramEntries ps' := rfl
      rw [hpe, List.map_append, List.map_cons] at hnd
      have hmid := List.nodup_cons.mp (List.nodup_middle.mp hnd)
      have hkey : ("param_".data ++ p.1) ∉ d.map Prod.fst :=
        fun hc => hmid.1 (List.mem_append_left _ hc)
      rw [List.foldl_cons, dictInsert_not_mem d _ _ hkey, hpe]
      have hstep := ih (d ++ [("param_".data ++ p.1, to_clickhouse p.2)])
        (by simpa using hnd)
      rw [hstep]
      simp

theorem foldl_table_inserts (ts : List (Str × ExternalTable)) :
    ∀ d : List (Str × PyValue), ((d ++ tableEntries ts).map Prod.fst).Nodup →
      ts.foldl
        (fun d nt =>
          dictInsert
            (dictInsert d (nt.1 ++ "_format".data) (PyValue.str "JSONCompactEachRow".data))
            (nt.1 ++ "_structure".data) (PyValue.str (structureStr nt.2)))
        d = d ++ tableEntries ts := by
  induction ts with
  | nil => intro d _; simp [tableEntries]
  | cons nt ts' ih =>
      intro d hnd
      have hte : tableEntries (nt :: ts') =
          (nt.1 ++ "_format".data, PyValue.str "JSONCompactEachRow".data) ::
          (nt.1 ++ "_structure".data, PyValue.str (structureStr nt.2)) :: tableEntries ts' :=
        rfl
      rw [hte, List.map_append, List.map_cons, List.map_cons] at hnd
      have hmid1 := List.nodup_cons.mp (List.nodup_middle.mp hnd)
      have hk1 : (nt.1 ++ "_format".data) ∉ d.map Prod.fst :=
        fun hc => hmid1.1 (List.mem_append_left _ hc)
      have hmid2 := List.nodup_cons.mp (List.nodup_middle.mp hmid1.2)
      have hne : (nt.1 ++ "_structure".data) ≠ (nt.1 ++ "_format".data) :=
        fun hc => hmid1.1 (hc ▸ List.mem_append_right _ (List.mem_cons_self _ _))
      have hk2 : (nt.1 ++ "_structure".data) ∉
          (d ++ [(nt.1 ++ "_format".data, PyValue.str "JSONCompactEachRow".data)]).map
            Prod.fst := by
        rw [List.map_append]
        intro hc
        rcases List.mem_append.mp hc with hc | hc
        · exact hmid2.1 (List.mem_append_left _ hc)
        · simp only [List.map_cons, List.map_nil, List.mem_singleton] at hc
          exact hne hc
      rw [List.foldl_cons, dictInsert_not_mem d _ _ hk1, dictInsert_not_mem _ _ _ hk2, hte]
      have hstep := ih
        ((d ++ [(nt.1 ++ "_format".data, PyValue.str "JSONCompactEachRow".data)]) ++
          [(nt.1 ++ "_structure".data, PyValue.str (structureStr nt.2))])
        (by simpa using hnd)
      rw [hstep]
      simp

/-- C7 (amended): on a call without settings, and provided the generated
keys are pairwise distinct (no bound parameter named so that `param_<name>`
collides with a table's `<name>_format`/`<name>_structure` key — see the
counterexample), `build_query_params` returns exactly the claimed mapping:
`database`, `output_format_json_quote_decimals ↦ "1"`, the compression flag
iff enabled, `param_<name> ↦ to_clickhouse(value)` per bound parameter and
the `<name>_format` / `<name>_structure` pair per external table — and no
other keys. -/
theorem build_query_params_keys (c : ChClientCore) (params : List (Str × PyValue))
    (tables : List (Str × ExternalTable))
    (hnd : ((expectedQueryParams c params tables).map Prod.fst).Nodup) :
    build_query_params c params [] tables = expectedQueryParams c params tables := by
  have hinit : (if c.enable_compression then
      dictInsert [("database".data, PyValue.str c.database),
        ("output_format_json_quote_decimals".data, PyValue.str "1".data)]
        "enable_http_compression".data (PyValue.str "1".data)
      else [("database".data, PyValue.str c.database),
        ("output_format_json_quote_decimals".data, PyValue.str "1".data)]) =
      [("database".data, PyValue.str c.database),
        ("output_format_json_quote_decimals".data, PyValue.str "1".data)] ++
      (if c.enable_compression then
        [("enable_http_compression".data, PyValue.str "1".data)] else []) := by
    by_cases hc : c.enable_compression
    · rw [if_pos hc, if_pos hc, dictInsert_not_mem _ _ _ (by simp)]
    · rw [if_neg hc, if_neg hc, List.append_nil]
  have hfullmap : ((([("database".data, PyValue.str c.database),
        ("output_format_json_quote_decimals".data, PyValue.str "1".data)] ++
      (if c.enable_compression then
        [("enable_http_compression".data, PyValue.str "1".data)] else []) ++
      paramEntries params) ++ tableEntries tables).map Prod.fst).Nodup := by
    have hexp : expectedQueryParams c params tables =
        ([("database".data, PyValue.str c.database),
          ("output_format_json_quote_decimals".data, PyValue.str "1".data)] ++
        (if c.enable_compression then
          [("enable_http_compression".data, PyValue.str "1".data)] else []) ++
        paramEntries params) ++ tableEntries tables := rfl
    rwa [hexp] at hnd
  have hp : ((([("database".data, PyValue.str c.database),
        ("output_format_json_quote_decimals".data, PyValue.str "1".data)] ++
      (if c.enable_compression then
        [("enable_http_compression".data, PyValue.str "1".data)] else [])) ++
      paramEntries params).map Prod.fst).Nodup := by
    rw [List.map_append] at hfullmap
    exact (List.nodup_append.mp hfullmap).1
  show List.foldl _ (List.foldl _ (List.foldl _ (if c.enable_compression then _ else _) params) []) tables = _
  rw [List.foldl_nil, hinit, foldl_param_inserts params _ hp,
    foldl_table_inserts tables _ hfullmap]
  rfl

/-- C7: the claim as stated fails when a bound parameter's `param_<name>`
key collides with an external table's generated key: with a parameter named
`t_structure` and a table named `param_t`, both map to `param_t_structure`
and the dict write of the table loop overwrites the rendered parameter
value, so no key carries `to_clickhouse(1)`. -/
theorem build_query_params_collision_counterexample :
    List.lookup "param_t_structure".data
      (build_query_params ⟨"default".data, [], "default".data, false⟩
        [("t_structure".data, PyValue.int 1)] []
        [("param_t".data, ⟨[("id".data, "UInt32".data)], []⟩)]) =
      some (PyValue.str "id UInt32".data) ∧
    to_clickhouse (PyValue.int 1) = PyValue.int 1 ∧
    PyValue.str "id UInt32".data ≠ PyValue.int 1 ∧
    (build_query_params ⟨"default".data, [], "default".data, false⟩
        [("t_structure".data, PyValue.int 1)] []
        [("param_t".data, ⟨[("id".data, "UInt32".data)], []⟩)]).map Prod.fst =
      ["database".data, "output_format_json_quote_decimals".data,
        "param_t_structure".data, "param_t_format".data] :=
  ⟨rfl, rfl, fun h => PyValue.noConfusion h, rfl⟩

/-- Witness for the amended C7 theorem at a concrete configuration with
compression, one bound parameter and one external table. -/
theorem build_query_params_keys_witness :
    build_query_params ⟨"default".data, [], "mydb".data, true⟩
      [("x".data, PyValue.int 5)] []
      [("ext".data, ⟨[("id".data, "UInt32".data), ("name".data, "String".data)], []⟩)] =
      [("database".data, PyValue.str "mydb".data),
       ("output_format_json_quote_decimals".data, PyValue.str "1".data),
       ("enable_http_compression".data, PyValue.str "1".data),
       ("param_x".data, PyValue.int 5),
       ("ext_format".data, PyValue.str "JSONCompactEachRow".data),
       ("ext_structure".data, PyValue.str "id UInt32, name String".data)] := by
  have h := build_query_params_keys ⟨"default".data, [], "mydb".data, true⟩
    [("x".data, PyValue.int 5)]
    [("ext".data, ⟨[("id".data, "UInt32".data), ("name".data, "String".data)], []⟩)]
    (by decide)
  rw [h]
  rfl

/-! ## Claim C10: `parse_row` -/

theorem convertValues_length_mismatch (vs : List PyValue)
    (cs : List (PyValue → Option PyValue)) (h : vs.length ≠ cs.length) :
    ∃ e, convertValues vs cs = Except.error e := by
  induction vs generalizing cs with
  | nil =>
      cases cs with
      | nil => exact absurd rfl h
      | cons c cs => exact ⟨PyErr.valueError, rfl⟩
  | cons v vs ih =>
      cases cs with
      | nil => exact ⟨PyErr.valueError, rfl⟩
      | cons c cs =>
          cases hc : c v with
          | none => exact ⟨PyErr.converterError, by simp [convertValues, hc]⟩
          | some w =>
              obtain ⟨e, he⟩ := ih cs (by simpa using h)
              exact ⟨e, by simp only [convertValues, hc, he]; rfl⟩

theorem convertValues_ok (vs : List PyValue) (cs : List (PyValue → Option PyValue))
    (ws : List PyValue) (hlen : vs.length = cs.length)
    (h : List.Forall₂ (fun (p : PyValue × (PyValue → Option PyValue)) w => p.2 p.1 = some w)
      (vs.zip cs) ws) :
    convertValues vs cs = Except.ok ws := by
  induction vs generalizing cs ws with
  | nil =>
      cases cs with
      | nil => cases h; rfl
      | cons c cs => simp at hlen
  | cons v vs ih =>
      cases cs with
      | nil => simp at hlen
      | cons c cs =>
          cases h with
          | cons hrel htail =>
              simp only [] at hrel
              simp only [convertValues, hrel]
              rw [ih cs _ (by simpa using hlen) htail]
              rfl

/-- C10: `parse_row` returns `None` on a whitespace-only line; on a decoded
JSON array whose length differs from the converter count it raises (no
truncated or padded row); and with matching lengths it returns a `Row` whose
values pair each decoded element with its converter, in order. -/
theorem parse_row_spec (names : List Str) (converters : List (PyValue → Option PyValue))
    (line : Str) :
    (pyStrip line = [] → parse_row names converters line = Except.ok Option.none) ∧
    (∀ vs : List PyValue, pyStrip line ≠ [] →
      json_loads line = some (PyValue.list vs) → vs.length ≠ converters.length →
        ∃ e, parse_row names converters line = Except.error e) ∧
    (∀ (vs ws : List PyValue), pyStrip line ≠ [] →
      json_loads line = some (PyValue.list vs) → vs.length = converters.length →
      List.Forall₂ (fun (p : PyValue × (PyValue → Option PyValue)) w => p.2 p.1 = some w)
        (vs.zip converters) ws →
        parse_row names converters line = Except.ok (some ⟨names, ws⟩)) := by
  refine ⟨?_, ?_, ?_⟩
  · intro h
    unfold parse_row
    rw [if_neg (by simpa using h)]
  · intro vs hne hload hlen
    obtain ⟨e, he⟩ := convertValues_length_mismatch vs converters hlen
    refine ⟨e, ?_⟩
    unfold parse_row
    rw [if_pos hne, hload]
    show (convertValues vs converters).map _ = _
    rw [he]
    rfl
  · intro vs ws hne hload hlen hconv
    unfold parse_row
    rw [if_pos hne, hload]
    show (convertValues vs converters).map _ = _
    rw [convertValues_ok vs converters ws hlen hconv]
    rfl

/-- Witness for C10 at concrete lines: a whitespace line, a matching
one-column row, and a one-element row against zero converters. -/
theorem parse_row_spec_witness :
    parse_row ["id".data] [fun v => some v] "   ".data = Except.ok Option.none ∧
    parse_row ["id".data] [fun v => some v] "[5]".data =
      Except.ok (some ⟨["id".data], [PyValue.int 5]⟩) ∧
    (∃ e, parse_row ["id".data] [] "[5]".data = Except.error e) := by
  refine ⟨(parse_row_spec ["id".data] [fun v => some v] "   ".data).1 (by decide),
    (parse_row_spec ["id".data] [fun v => some v] "[5]".data).2.2 [PyValue.int 5]
      [PyValue.int 5] (by decide) rfl (by simp)
      (List.Forall₂.cons rfl List.Forall₂.nil),
    (parse_row_spec ["id".data] [] "[5]".data).2.1 [PyValue.int 5] (by decide) rfl
      (by simp)⟩

/-! ## Claim C8: the textual `to_json` path -/

theorem natReprCore_digits :
    ∀ (fuel n : Nat) (acc : Str), (∀ c ∈ acc, 48 ≤ c.toNat ∧ c.toNat ≤ 57) →
      ∀ c ∈ natReprCore fuel n acc, 48 ≤ c.toNat ∧ c.toNat ≤ 57 := by
  intro fuel
  induction fuel with
  | zero => intro n acc hacc c hc; exact hacc c hc
  | succ f ih =>
      intro n acc hacc c hc
      have hd : ∀ m : Nat, m < 10 → 48 ≤ (Char.ofNat (48 + m)).toNat ∧
          (Char.ofNat (48 + m)).toNat ≤ 57 := by
        intro m hm
        have : (Char.ofNat (48 + m)).toNat = 48 + m := by
          unfold Char.ofNat
          rw [dif_pos (by unfold Nat.isValidChar; omega)]
          rfl
        omega
      have hacc' : ∀ c ∈ (Char.ofNat ('0'.toNat + n % 10) :: acc),
          48 ≤ c.toNat ∧ c.toNat ≤ 57 := by
        intro c hc
        rcases List.mem_cons.mp hc with hc | hc
        · subst hc; exact hd (n % 10) (Nat.mod_lt _ (by omega))
        · exact hacc c hc
      unfold natReprCore at hc
      by_cases hn : n < 10
      · rw [if_pos hn] at hc
        exact hacc' c hc
      · rw [if_neg hn] at hc
        exact ih (n / 10) _ hacc' c hc

theorem natRepr_digits (n : Nat) : ∀ c ∈ natRepr n, 48 ≤ c.toNat ∧ c.toNat ≤ 57 :=
  natReprCore_digits (n + 1) n [] (by intro c hc; cases hc)

theorem pad_digits (w n : Nat) : ∀ c ∈ pad w n, 48 ≤ c.toNat ∧ c.toNat ≤ 57 := by
  intro c hc
  unfold pad at hc
  rcases List.mem_append.mp hc with hc | hc
  · have := List.eq_of_mem_replicate hc
    subst this
    exact ⟨by decide, by decide⟩
  · exact natRepr_digits n c hc

/-- A character that JSON string escaping passes through verbatim. -/
theorem jsonEscapeChar_plain (c : Char) (h32 : 32 ≤ c.toNat) (hq : c ≠ '"')
    (hbs : c ≠ '\\') : jsonEscapeChar c = [c] := by
  have hne : ∀ d : Char, d.toNat < 32 → c ≠ d := by
    intro d hd he
    rw [he] at h32
    omega
  unfold jsonEscapeChar
  rw [if_neg hq, if_neg hbs, if_neg (hne '\n' (by decide)), if_neg (hne '\t' (by decide)),
    if_neg (hne '\r' (by decide)), if_neg (hne '\x08' (by decide)),
    if_neg (hne '\x0c' (by decide)), if_neg (by omega)]

theorem flatten_map_eq_self (f : Char → Str) :
    ∀ s : Str, (∀ c ∈ s, f c = [c]) → (s.map f).flatten = s := by
  intro s
  induction s with
  | nil => intro _; rfl
  | cons c s ih =>
      intro h
      show (f c :: s.map f).flatten = c :: s
      rw [List.flatten_cons, h c (List.mem_cons_self c s),
        ih (fun d hd => h d (List.mem_cons_of_mem c hd))]
      rfl

theorem jsonQuote_plain (s : Str) (h : ∀ c ∈ s, jsonEscapeChar c = [c]) :
    jsonQuote s = '"' :: (s ++ ['"']) := by
  unfold jsonQuote
  rw [flatten_map_eq_self jsonEscapeChar s h]

/-- Every character of the default datetime rendering is digits, `-`, space
or `:`, none of which JSON escapes. -/
theorem fmtDateTimeHMS_plain (d : PyDateTime) :
    ∀ c ∈ fmtDateTimeHMS d, jsonEscapeChar c = [c] := by
  intro c hc
  unfold fmtDateTimeHMS at hc
  have hdig : (48 ≤ c.toNat ∧ c.toNat ≤ 57) → jsonEscapeChar c = [c] := by
    intro hd
    refine jsonEscapeChar_plain c (by omega) ?_ ?_ <;> intro he <;> rw [he] at hd <;>
      simp at hd
  simp only [List.mem_append, List.mem_cons] at hc
  rcases hc with hc | hc | hc | hc | hc | hc | hc | hc | hc | hc | hc
  · exact hdig (pad_digits 4 d.year c hc)
  · subst hc; rfl
  · exact hdig (pad_digits 2 d.month c hc)
  · subst hc; rfl
  · exact hdig (pad_digits 2 d.day c hc)
  · subst hc; rfl
  · exact hdig (pad_digits 2 d.hour c hc)
  · subst hc; rfl
  · exact hdig (pad_digits 2 d.minute c hc)
  · subst hc; rfl
  · exact hdig (pad_digits 2 d.second c hc)

/-- Same for the default date rendering. -/
theorem fmtDate_plain (d : PyDate) : ∀ c ∈ fmtDate d, jsonEscapeChar c = [c] := by
  intro c hc
  unfold fmtDate at hc
  have hdig : (48 ≤ c.toNat ∧ c.toNat ≤ 57) → jsonEscapeChar c = [c] := by
    intro hd
    refine jsonEscapeChar_plain c (by omega) ?_ ?_ <;> intro he <;> rw [he] at hd <;>
      simp at hd
  simp only [List.mem_append, List.mem_cons] at hc
  rcases hc with hc | hc | hc | hc | hc
  · exact hdig (pad_digits 4 d.year c hc)
  · subst hc; rfl
  · exact hdig (pad_digits 2 d.month c hc)
  · subst hc; rfl
  · exact hdig (pad_digits 2 d.day c hc)

theorem dumpsSeq_tjList (xs : List PyValue) : dumpsSeq (tjList xs) = xs.mapM to_json := by
  induction xs with
  | nil => rfl
  | cons x xs ih =>
      rw [tjList_cons, dumpsSeq_cons, List.mapM_cons]
      show (to_json x).bind (fun p => (dumpsSeq (tjList xs)).map fun ps => p :: ps) = _
      rw [ih]
      cases to_json x with
      | none => rfl
      | some p =>
          cases xs.mapM to_json with
          | none => rfl
          | some ps => rfl

theorem dumpsMembers_tjKV (kvs : List (Str × PyValue)) :
    dumpsMembers (tjKV kvs) =
      kvs.mapM fun kv => (to_json kv.2).map fun p => jsonQuote kv.1 ++ ':' :: p := by
  induction kvs with
  | nil => rfl
  | cons kv kvs ih =>
      obtain ⟨k, v⟩ := kv
      rw [tjKV_cons, dumpsMembers_cons, List.mapM_cons]
      show (to_json v).bind
        (fun p => (dumpsMembers (tjKV kvs)).map fun ps => (jsonQuote k ++ ':' :: p) :: ps) = _
      rw [ih]
      cases to_json v with
      | none => rfl
      | some p =>
          cases kvs.mapM (fun kv => (to_json kv.2).map fun p => jsonQuote kv.1 ++ ':' :: p) with
          | none => rfl
          | some ps => rfl

/-- C8: on the textual external-table path, `to_json` maps lists and tuples
to JSON arrays of their elementwise serialisations, dicts to JSON objects,
bytes to their UTF-8 decoding (serialised exactly like the decoded string),
booleans to `true`/`false`, and datetimes/dates to the quoted server-default
strings `YYYY-MM-DD HH:MM:SS` / `YYYY-MM-DD`; the collection equations
compose, so the leaf forms apply recursively through nesting. -/
theorem to_json_rendering :
    (∀ xs : List PyValue, to_json (PyValue.list xs) =
      (xs.mapM to_json).map fun ps => '[' :: (pyJoin ",".data ps ++ [']'])) ∧
    (∀ xs : List PyValue, to_json (PyValue.tuple xs) =
      (xs.mapM to_json).map fun ps => '[' :: (pyJoin ",".data ps ++ [']'])) ∧
    (∀ kvs : List (Str × PyValue), to_json (PyValue.dict kvs) =
      (kvs.mapM fun kv => (to_json kv.2).map fun p => jsonQuote kv.1 ++ ':' :: p).map
        fun ps => '\x7b' :: (pyJoin ",".data ps ++ ['\x7d'])) ∧
    (∀ s : Str, to_json (PyValue.bytes s) = to_json (PyValue.str s)) ∧
    (to_json (PyValue.bool true) = some "true".data ∧
      to_json (PyValue.bool false) = some "false".data ∧
      to_json PyValue.none = some "null".data) ∧
    (∀ d : PyDateTime, to_json (PyValue.pydatetime d) =
      some ('"' :: (fmtDateTimeHMS d ++ ['"']))) ∧
    (∀ d : PyDate, to_json (PyValue.pydate d) = some ('"' :: (fmtDate d ++ ['"']))) := by
  refine ⟨?_, ?_, ?_, fun s => rfl, ⟨rfl, rfl, rfl⟩, ?_, ?_⟩
  · intro xs
    show json_dumps (tj_convert (PyValue.list xs)) = _
    rw [tj_convert_list, json_dumps_list, dumpsSeq_tjList]
  · intro xs
    show json_dumps (tj_convert (PyValue.tuple xs)) = _
    rw [tj_convert_tuple, json_dumps_tuple, dumpsSeq_tjList]
  · intro kvs
    show json_dumps (tj_convert (PyValue.dict kvs)) = _
    rw [tj_convert_dict, json_dumps_dict, dumpsMembers_tjKV]
  · intro d
    show some (jsonQuote (fmtDateTimeHMS d)) = _
    rw [jsonQuote_plain _ (fmtDateTimeHMS_plain d)]
  · intro d
    show some (jsonQuote (fmtDate d)) = _
    rw [jsonQuote_plain _ (fmtDate_plain d)]

/-! ## Support lemmas for the `LowCardinality` and `Tuple` claims -/

theorem isPrefixOf_length_le : ∀ l₁ l₂ : Str, l₁.isPrefixOf l₂ = true →
    l₁.length ≤ l₂.length := by
  intro l₁
  induction l₁ with
  | nil => intro l₂ _; simp
  | cons a as ih =>
      intro l₂ h
      cases l₂ with
      | nil => simp [List.isPrefixOf] at h
      | cons b bs =>
          simp only [List.isPrefixOf, Bool.and_eq_true] at h
          have := ih bs h.2
          simp only [List.length_cons]
          omega

theorem pyStrip_length_le (l : Str) : (pyStrip l).length ≤ l.length := by
  unfold pyStrip
  calc ((l.dropWhile isPyWs).reverse.dropWhile isPyWs).reverse.length
      = ((l.dropWhile isPyWs).reverse.dropWhile isPyWs).length := List.length_reverse _
    _ ≤ (l.dropWhile isPyWs).reverse.length :=
        List.Sublist.length_le (List.dropWhile_sublist isPyWs)
    _ = (l.dropWhile isPyWs).length := List.length_reverse _
    _ ≤ l.length := List.Sublist.length_le (List.dropWhile_sublist isPyWs)

/-- A string with a non-whitespace first and last character strips to
itself. -/
theorem pyStrip_sandwich (c c' : Char) (mid : Str) (h1 : isPyWs c = false)
    (h2 : isPyWs c' = false) : pyStrip (c :: (mid ++ [c'])) = c :: (mid ++ [c']) := by
  unfold pyStrip
  rw [List.dropWhile_cons, if_neg (by simp [h1])]
  rw [List.reverse_cons, List.reverse_append, List.reverse_singleton, List.singleton_append,
    List.cons_append, List.dropWhile_cons, if_neg (by simp [h2])]
  simp [List.reverse_append]

theorem extract_base_type_fuel_irrel :
    ∀ f₁ : Nat, ∀ (f₂ : Nat) (t : Str), t.length ≤ f₁ → t.length ≤ f₂ →
      extract_base_type_fuel f₁ t = extract_base_type_fuel f₂ t := by
  intro f₁
  induction f₁ with
  | zero =>
      intro f₂ t h₁ _
      have ht : t = [] := List.eq_nil_of_length_eq_zero (Nat.le_zero.mp h₁)
      subst ht
      cases f₂ with
      | zero => rfl
      | succ g => rfl
  | succ g ih =>
      intro f₂ t h₁ h₂
      cases f₂ with
      | zero =>
          have ht : t = [] := List.eq_nil_of_length_eq_zero (Nat.le_zero.mp h₂)
          subst ht; rfl
      | succ g₂ =>
          show (if "Nullable(".data.isPrefixOf t = true then
              extract_base_type_fuel g ((t.drop 9).dropLast)
            else if "LowCardinality(".data.isPrefixOf t = true then
              extract_base_type_fuel g ((t.drop 15).dropLast)
            else if t.contains '(' = true then t.takeWhile (fun c => c ≠ '(') else t) =
            (if "Nullable(".data.isPrefixOf t = true then
              extract_base_type_fuel g₂ ((t.drop 9).dropLast)
            else if "LowCardinality(".data.isPrefixOf t = true then
              extract_base_type_fuel g₂ ((t.drop 15).dropLast)
            else if t.contains '(' = true then t.takeWhile (fun c => c ≠ '(') else t)
          by_cases hN : "Nullable(".data.isPrefixOf t = true
          · have h9 : 9 ≤ t.length := by simpa using isPrefixOf_length_le _ _ hN
            rw [if_pos hN, if_pos hN]
            exact ih g₂ _ (by simp [List.length_dropLast, List.length_drop]; omega)
              (by simp [List.length_dropLast, List.length_drop]; omega)
          · by_cases hL : "LowCardinality(".data.isPrefixOf t = true
            · have h15 : 15 ≤ t.length := by simpa using isPrefixOf_length_le _ _ hL
              rw [if_neg hN, if_neg hN, if_pos hL, if_pos hL]
              exact ih g₂ _ (by simp [List.length_dropLast, List.length_drop]; omega)
                (by simp [List.length_dropLast, List.length_drop]; omega)
            · rw [if_neg hN, if_neg hN, if_neg hL, if_neg hL]

theorem unwrap_wrappers_fuel_irrel :
    ∀ f₁ : Nat, ∀ (f₂ : Nat) (u : Str), u.length ≤ f₁ → u.length ≤ f₂ →
      unwrap_wrappers_fuel f₁ u = unwrap_wrappers_fuel f₂ u := by
  intro f₁
  induction f₁ with
  | zero =>
      intro f₂ u h₁ _
      have hu : u = [] := List.eq_nil_of_length_eq_zero (Nat.le_zero.mp h₁)
      subst hu
      cases f₂ with
      | zero => rfl
      | succ g => rfl
  | succ g ih =>
      intro f₂ u h₁ h₂
      cases f₂ with
      | zero =>
          have hu : u = [] := List.eq_nil_of_length_eq_zero (Nat.le_zero.mp h₂)
          subst hu; rfl
      | succ g₂ =>
          show (if "Nullable(".data.isPrefixOf u = true ∧ endsParen u = true then
              unwrap_wrappers_fuel g (pyStrip ((u.drop 9).dropLast))
            else if "LowCardinality(".data.isPrefixOf u = true ∧ endsParen u = true then
              unwrap_wrappers_fuel g (pyStrip ((u.drop 15).dropLast))
            else u) =
            (if "Nullable(".data.isPrefixOf u = true ∧ endsParen u = true then
              unwrap_wrappers_fuel g₂ (pyStrip ((u.drop 9).dropLast))
            else if "LowCardinality(".data.isPrefixOf u = true ∧ endsParen u = true then
              unwrap_wrappers_fuel g₂ (pyStrip ((u.drop 15).dropLast))
            else u)
          by_cases hN : "Nullable(".data.isPrefixOf u = true ∧ endsParen u = true
          · have h9 : 9 ≤ u.length := by simpa using isPrefixOf_length_le _ _ hN.1
            have hb := pyStrip_length_le ((u.drop 9).dropLast)
            rw [if_pos hN, if_pos hN]
            exact ih g₂ _ (by simp [List.length_dropLast, List.length_drop] at hb ⊢; omega)
              (by simp [List.length_dropLast, List.length_drop] at hb ⊢; omega)
          · by_cases hL : "LowCardinality(".data.isPrefixOf u = true ∧ endsParen u = true
            · have h15 : 15 ≤ u.length := by simpa using isPrefixOf_length_le _ _ hL.1
              have hb := pyStrip_length_le ((u.drop 15).dropLast)
              rw [if_neg hN, if_neg hN, if_pos hL, if_pos hL]
              exact ih g₂ _ (by simp [List.length_dropLast, List.length_drop] at hb ⊢; omega)
                (by simp [List.length_dropLast, List.length_drop] at hb ⊢; omega)
            · rw [if_neg hN, if_neg hN, if_neg hL, if_neg hL]

/-! ## Claim C3: `LowCardinality` transparency -/

theorem isPrefixOf_refl_append (l r : Str) : l.isPrefixOf (l ++ r) = true := by
  induction l with
  | nil => cases r <;> rfl
  | cons a as ih => simp [List.isPrefixOf, ih]

theorem extract_base_type_LC (X : Str) :
    extract_base_type ("LowCardinality(".data ++ X ++ [')']) = extract_base_type X := by
  have hNa : "Nullable(".data.isPrefixOf ("LowCardinality(".data ++ X ++ [')']) = false := rfl
  have hLa : "LowCardinality(".data.isPrefixOf ("LowCardinality(".data ++ X ++ [')']) =
      true := by
    rw [List.append_assoc]
    exact isPrefixOf_refl_append _ _
  have hdrop : ("LowCardinality(".data ++ X ++ [')']).drop 15 = X ++ [')'] := by
    rw [List.append_assoc, show (15 : Nat) = "LowCardinality(".data.length from rfl]
    exact List.drop_left _ _
  unfold extract_base_type
  have hlen : ("LowCardinality(".data ++ X ++ [')']).length = (X.length + 15) + 1 := by
    simp [List.length_append]
  rw [hlen]
  have hstep : extract_base_type_fuel ((X.length + 15) + 1)
      ("LowCardinality(".data ++ X ++ [')']) = extract_base_type_fuel (X.length + 15) X := by
    show (if "Nullable(".data.isPrefixOf ("LowCardinality(".data ++ X ++ [')']) = true then
        extract_base_type_fuel (X.length + 15)
          ((("LowCardinality(".data ++ X ++ [')']).drop 9).dropLast)
      else if "LowCardinality(".data.isPrefixOf ("LowCardinality(".data ++ X ++ [')']) =
          true then
        extract_base_type_fuel (X.length + 15)
          ((("LowCardinality(".data ++ X ++ [')']).drop 15).dropLast)
      else if ("LowCardinality(".data ++ X ++ [')']).contains '(' = true then
        ("LowCardinality(".data ++ X ++ [')']).takeWhile (fun c => c ≠ '(')
      else "LowCardinality(".data ++ X ++ [')']) = _
    rw [if_neg (fun h => Bool.false_ne_true (hNa ▸ h)), if_pos hLa, hdrop,
      List.dropLast_concat]
  rw [hstep]
  exact extract_base_type_fuel_irrel (X.length + 15) X.length X (by omega) (by omega)

theorem unwrap_wrappers_LC (X : Str) :
    unwrap_wrappers ("LowCardinality(".data ++ X ++ [')']) = unwrap_wrappers X := by
  have hNa : "Nullable(".data.isPrefixOf ("LowCardinality(".data ++ X ++ [')']) = false := rfl
  have hLa : "LowCardinality(".data.isPrefixOf ("LowCardinality(".data ++ X ++ [')']) =
      true := by
    rw [List.append_assoc]
    exact isPrefixOf_refl_append _ _
  have hdrop : ("LowCardinality(".data ++ X ++ [')']).drop 15 = X ++ [')'] := by
    rw [List.append_assoc, show (15 : Nat) = "LowCardinality(".data.length from rfl]
    exact List.drop_left _ _
  have hE : endsParen ("LowCardinality(".data ++ X ++ [')']) = true := by
    unfold endsParen
    rw [List.getLast?_concat]
    rfl
  have hstrip : pyStrip ("LowCardinality(".data ++ X ++ [')']) =
      "LowCardinality(".data ++ X ++ [')'] := by
    have hshape : "LowCardinality(".data ++ X ++ [')'] =
        'L' :: (("owCardinality(".data ++ X) ++ [')']) := by simp
    rw [hshape, pyStrip_sandwich _ _ _ (by decide) (by decide)]
  unfold unwrap_wrappers
  rw [hstrip]
  have hlen : ("LowCardinality(".data ++ X ++ [')']).length = (X.length + 15) + 1 := by
    simp [List.length_append]
  rw [hlen]
  have hstep : unwrap_wrappers_fuel ((X.length + 15) + 1)
      ("LowCardinality(".data ++ X ++ [')']) =
      unwrap_wrappers_fuel (X.length + 15) (pyStrip X) := by
    show (if "Nullable(".data.isPrefixOf ("LowCardinality(".data ++ X ++ [')']) = true ∧
        endsParen ("LowCardinality(".data ++ X ++ [')']) = true then
        unwrap_wrappers_fuel (X.length + 15)
          (pyStrip ((("LowCardinality(".data ++ X ++ [')']).drop 9).dropLast))
      else if "LowCardinality(".data.isPrefixOf ("LowCardinality(".data ++ X ++ [')']) =
          true ∧ endsParen ("LowCardinality(".data ++ X ++ [')']) = true then
        unwrap_wrappers_fuel (X.length + 15)
          (pyStrip ((("LowCardinality(".data ++ X ++ [')']).drop 15).dropLast))
      else "LowCardinality(".data ++ X ++ [')']) = _
    rw [if_neg (fun h => Bool.false_ne_true (hNa ▸ h.1)), if_pos ⟨hLa, hE⟩, hdrop,
      List.dropLast_concat]
  rw [hstep]
  exact unwrap_wrappers_fuel_irrel (X.length + 15) X.length (pyStrip X)
    (le_trans (pyStrip_length_le X) (by omega)) (pyStrip_length_le X)

/-- C3: the claim as stated fails for a composite `X`: `_parse_array` tests
`startswith("Array(")` on the full type string, so
`LowCardinality(Array(Date))` skips element conversion while `Array(Date)`
converts — the two decodings differ. -/
theorem lowcardinality_array_counterexample :
    from_clickhouse (PyValue.list [PyValue.str "2025-12-14".data])
        "LowCardinality(Array(Date))".data =
      some (PyValue.list [PyValue.str "2025-12-14".data]) ∧
    from_clickhouse (PyValue.list [PyValue.str "2025-12-14".data]) "Array(Date)".data =
      some (PyValue.list [PyValue.pydate ⟨2025, 12, 14⟩]) ∧
    some (PyValue.list [PyValue.str "2025-12-14".data]) ≠
      some (PyValue.list [PyValue.pydate ⟨2025, 12, 14⟩]) := by
  refine ⟨rfl, rfl, ?_⟩
  intro h
  have := congrArg (fun w => match w with
    | some (PyValue.list (PyValue.str _ :: _)) => true
    | _ => false) h
  simp at this

/-- C3 (amended): `LowCardinality(X)` decodes identically to `X` for every
value and every inner type `X` that does not itself start with `"Array("` —
base-type extraction, tuple parsing and timezone extraction all unwrap the
wrapper first; only `_parse_array`'s `startswith("Array(")` test on the
unstripped type string breaks transparency (see the counterexample). -/
theorem lowcardinality_transparent (v : PyValue) (X : Str)
    (hX : "Array(".data.isPrefixOf X = false) :
    from_clickhouse v ("LowCardinality(".data ++ X ++ [')']) = from_clickhouse v X := by
  have hbase := extract_base_type_LC X
  have hunwrap := unwrap_wrappers_LC X
  have hdef : ∀ w : PyValue, w ≠ PyValue.none → (∀ s, w ≠ PyValue.str s) →
      (∀ xs, w ≠ PyValue.list xs) →
      from_clickhouse w ("LowCardinality(".data ++ X ++ [')']) = from_clickhouse w X := by
    intro w h1 h2 h3
    rw [from_clickhouse_default w _ h1 h2 h3, from_clickhouse_default w _ h1 h2 h3, hbase]
  cases v
  case none => rw [from_clickhouse_none, from_clickhouse_none]
  case str s =>
    rw [from_clickhouse_str, from_clickhouse_str, hbase]
    unfold parse_string_type extract_timezone
    rw [hunwrap]
  case list xs =>
    rw [from_clickhouse_list, from_clickhouse_list, hbase,
      parse_tuple_eq xs ("LowCardinality(".data ++ X ++ [')']), parse_tuple_eq xs X,
      hunwrap,
      parse_array_eq xs ("LowCardinality(".data ++ X ++ [')']), parse_array_eq xs X]
    have hA : "Array(".data.isPrefixOf ("LowCardinality(".data ++ X ++ [')']) = false := rfl
    rw [hA, hX]
    simp
  all_goals exact hdef _ (by simp) (by simp) (by simp)

/-- Witness for the amended C3 theorem: `LowCardinality(Date)` decodes a
date string exactly as `Date` does. -/
theorem lowcardinality_transparent_witness :
    from_clickhouse (PyValue.str "2025-12-14".data)
        ("LowCardinality(".data ++ "Date".data ++ [')']) =
      from_clickhouse (PyValue.str "2025-12-14".data) "Date".data ∧
    from_clickhouse (PyValue.str "2025-12-14".data) "Date".data =
      some (PyValue.pydate ⟨2025, 12, 14⟩) :=
  ⟨lowcardinality_transparent (PyValue.str "2025-12-14".data) "Date".data (by decide), rfl⟩

/-! ## Claim C4: `Tuple` pairing -/

theorem extract_base_type_tuple_lit (inner : Str) :
    extract_base_type ("Tuple(".data ++ inner ++ [')']) = "Tuple".data := by
  unfold extract_base_type
  have hlen : ("Tuple(".data ++ inner ++ [')']).length = (inner.length + 6) + 1 := by
    simp [List.length_append]
  rw [hlen]
  rfl

theorem unwrap_tuple_lit (inner : Str) :
    unwrap_wrappers ("Tuple(".data ++ inner ++ [')']) = "Tuple(".data ++ inner ++ [')'] := by
  have hstrip : pyStrip ("Tuple(".data ++ inner ++ [')']) =
      "Tuple(".data ++ inner ++ [')'] := by
    have hshape : "Tuple(".data ++ inner ++ [')'] =
        'T' :: (("uple(".data ++ inner) ++ [')']) := by simp
    rw [hshape, pyStrip_sandwich _ _ _ (by decide) (by decide)]
  unfold unwrap_wrappers
  rw [hstrip]
  have hlen : ("Tuple(".data ++ inner ++ [')']).length = (inner.length + 6) + 1 := by
    simp [List.length_append]
  rw [hlen]
  have hNa : "Nullable(".data.isPrefixOf ("Tuple(".data ++ inner ++ [')']) = false := rfl
  have hLa : "LowCardinality(".data.isPrefixOf ("Tuple(".data ++ inner ++ [')']) =
      false := rfl
  show (if "Nullable(".data.isPrefixOf ("Tuple(".data ++ inner ++ [')']) = true ∧
      endsParen ("Tuple(".data ++ inner ++ [')']) = true then
      unwrap_wrappers_fuel (inner.length + 6)
        (pyStrip ((("Tuple(".data ++ inner ++ [')']).drop 9).dropLast))
    else if "LowCardinality(".data.isPrefixOf ("Tuple(".data ++ inner ++ [')']) = true ∧
        endsParen ("Tuple(".data ++ inner ++ [')']) = true then
      unwrap_wrappers_fuel (inner.length + 6)
        (pyStrip ((("Tuple(".data ++ inner ++ [')']).drop 15).dropLast))
    else "Tuple(".data ++ inner ++ [')']) = "Tuple(".data ++ inner ++ [')']
  rw [if_neg (fun h => Bool.false_ne_true (hNa ▸ h.1)),
    if_neg (fun h => Bool.false_ne_true (hLa ▸ h.1))]

theorem convZip_ok (xs : List PyValue) :
    ∀ (ts : List Str) (ys : List PyValue),
      List.Forall₂ (fun p y => from_clickhouse p.1 p.2 = some y) (xs.zip ts) ys →
      convZip xs ts = some ys := by
  induction xs with
  | nil =>
      intro ts ys h
      cases h
      exact convZip_nil ts
  | cons x xs ih =>
      intro ts ys h
      cases ts with
      | nil =>
          cases h
          exact convZip_nil_types x xs
      | cons t ts =>
          cases h with
          | cons hxy htail =>
              rw [convZip_cons]
              simp only [] at hxy
              rw [hxy, ih ts _ htail]
              rfl

/-- C4: the claim as stated fails on nested parametric element types: the
regex splitter cuts `Tuple(Tuple(Date, Array(Int32)), Date)`'s argument list
into three pieces, so the value `[["2025-01-01", [1]], "2025-12-14"]` is
mis-paired — the second element pairs with the fragment `Array(Int32))`
instead of `Date` and stays a raw string. -/
theorem tuple_pairing_counterexample :
    from_clickhouse
        (PyValue.list [PyValue.list [PyValue.str "2025-01-01".data, PyValue.list [PyValue.int 1]],
          PyValue.str "2025-12-14".data])
        "Tuple(Tuple(Date, Array(Int32)), Date)".data =
      some (PyValue.tuple [PyValue.tuple [PyValue.str "2025-01-01".data],
        PyValue.str "2025-12-14".data]) ∧
    from_clickhouse (PyValue.str "2025-12-14".data) "Date".data =
      some (PyValue.pydate ⟨2025, 12, 14⟩) ∧
    (PyValue.str "2025-12-14".data : PyValue) ≠ PyValue.pydate ⟨2025, 12, 14⟩ :=
  ⟨rfl, rfl, fun h => PyValue.noConfusion h⟩

/-- C4 (amended): for a column of type `Tuple(T1, …, Tk)` whose argument list
`_split_type_arguments` actually splits into exactly `[T1, …, Tk]`, a list
value of length `k` whose elements each convert under their own `Ti` decodes
to the tuple of those pointwise conversions, in order. -/
theorem tuple_pairing (xs : List PyValue) (inner : Str) (ts : List Str)
    (ys : List PyValue)
    (hsplit : split_type_arguments inner = ts)
    (hlen : xs.length = ts.length)
    (hconv : List.Forall₂ (fun p y => from_clickhouse p.1 p.2 = some y) (xs.zip ts) ys) :
    from_clickhouse (PyValue.list xs) ("Tuple(".data ++ inner ++ [')']) =
      some (PyValue.tuple ys) := by
  have hD : "Decimal".data.isPrefixOf "Tuple".data = false := rfl
  have hTp : "Tuple(".data.isPrefixOf ("Tuple(".data ++ inner ++ [')']) = true := by
    rw [List.append_assoc]
    exact isPrefixOf_refl_append _ _
  have hdrop : ("Tuple(".data ++ inner ++ [')']).drop 6 = inner ++ [')'] := by
    rw [List.append_assoc, show (6 : Nat) = "Tuple(".data.length from rfl]
    exact List.drop_left _ _
  rw [from_clickhouse_list, extract_base_type_tuple_lit,
    if_neg (fun h => Bool.false_ne_true (hD ▸ h)), if_pos rfl,
    parse_tuple_eq, unwrap_tuple_lit, if_pos hTp, hdrop, List.dropLast_concat, hsplit,
    convZip_ok xs ts ys hconv]
  rfl

/-- Witness for the amended C4 theorem: `Tuple(UInt32, Date)` pairs a
two-element list with its two element types in order. -/
theorem tuple_pairing_witness :
    from_clickhouse (PyValue.list [PyValue.int 1, PyValue.str "2025-12-14".data])
        ("Tuple(".data ++ "UInt32, Date".data ++ [')']) =
      some (PyValue.tuple [PyValue.int 1, PyValue.pydate ⟨2025, 12, 14⟩]) :=
  tuple_pairing [PyValue.int 1, PyValue.str "2025-12-14".data] "UInt32, Date".data
    ["UInt32".data, "Date".data] [PyValue.int 1, PyValue.pydate ⟨2025, 12, 14⟩]
    (by decide) (by decide)
    (List.Forall₂.cons rfl (List.Forall₂.cons rfl List.Forall₂.nil))

/-! ## Claim C6: `DateTime` / `DateTime64` timezone annotation -/

theorem takeWhile_append_of_all (p : Char → Bool) (l r : Str) (h : ∀ c ∈ l, p c = true) :
    (l ++ r).takeWhile p = l ++ r.takeWhile p := by
  induction l with
  | nil => rfl
  | cons a as ih =>
      have hpa : p a = true := h a (List.mem_cons_self a as)
      have htail := ih (fun c hc => h c (List.mem_cons_of_mem a hc))
      simp [List.takeWhile_cons, hpa, htail]

theorem dropWhile_append_of_all (p : Char → Bool) (l r : Str) (h : ∀ c ∈ l, p c = true) :
    (l ++ r).dropWhile p = r.dropWhile p := by
  induction l with
  | nil => rfl
  | cons a as ih =>
      have hpa : p a = true := h a (List.mem_cons_self a as)
      have htail := ih (fun c hc => h c (List.mem_cons_of_mem a hc))
      simp [List.dropWhile_cons, hpa, htail]

theorem tz_take (tz : Str) (hq : '\'' ∉ tz) :
    (tz ++ "')".data).takeWhile (fun c => c ≠ '\'') = tz := by
  rw [takeWhile_append_of_all (fun c => c ≠ '\'') tz "')".data
      (fun c hc => decide_eq_true (fun he => hq (he ▸ hc)))]
  show tz ++ [] = tz
  exact List.append_nil tz

theorem tz_drop (tz : Str) (hq : '\'' ∉ tz) :
    (tz ++ "')".data).dropWhile (fun c => c ≠ '\'') = '\'' :: [')'] := by
  rw [dropWhile_append_of_all (fun c => c ≠ '\'') tz "')".data
      (fun c hc => decide_eq_true (fun he => hq (he ▸ hc)))]
  rfl

theorem tzQuoted_capture (tz : Str) (hne : tz ≠ []) (hq : '\'' ∉ tz) :
    tzQuoted ('\'' :: (tz ++ "')".data)) = some tz := by
  simp only [tzQuoted]
  rw [tz_drop tz hq, tz_take tz hq]
  show tzClose tz [')'] = some tz
  simp only [tzClose]
  rw [if_neg hne]
  rfl

theorem matchTzAt_dt (tz : Str) (hne : tz ≠ []) (hq : '\'' ∉ tz) :
    matchTzAt ("DateTime('".data ++ (tz ++ "')".data)) = some tz :=
  tzQuoted_capture tz hne hq

theorem matchTzAt_dt64 (tz : Str) (hne : tz ≠ []) (hq : '\'' ∉ tz) :
    matchTzAt ("DateTime64(6, '".data ++ (tz ++ "')".data)) = some tz :=
  tzQuoted_capture tz hne hq

theorem findTzAux_cons_some (c : Char) (rest cap : Str)
    (h : matchTzAt (c :: rest) = some cap) : findTzAux (c :: rest) = some cap := by
  unfold findTzAux
  rw [h]

theorem unwrap_wrappers_eq_self (u : Str) (hstrip : pyStrip u = u)
    (hNa : "Nullable(".data.isPrefixOf u = false)
    (hLa : "LowCardinality(".data.isPrefixOf u = false) :
    unwrap_wrappers u = u := by
  unfold unwrap_wrappers
  rw [hstrip]
  cases hl : u.length with
  | zero => rfl
  | succ n =>
      show (if "Nullable(".data.isPrefixOf u = true ∧ endsParen u = true then
          unwrap_wrappers_fuel n (pyStrip ((u.drop 9).dropLast))
        else if "LowCardinality(".data.isPrefixOf u = true ∧ endsParen u = true then
          unwrap_wrappers_fuel n (pyStrip ((u.drop 15).dropLast))
        else u) = u
      rw [if_neg (fun h => Bool.false_ne_true (hNa ▸ h.1)),
        if_neg (fun h => Bool.false_ne_true (hLa ▸ h.1))]

theorem pyStrip_dt_lit (tz : Str) :
    pyStrip ("DateTime('".data ++ (tz ++ "')".data)) =
      "DateTime('".data ++ (tz ++ "')".data) := by
  have hshape : "DateTime('".data ++ (tz ++ "')".data) =
      'D' :: ((("ateTime('".data ++ tz) ++ ['\'']) ++ [')']) := by simp
  rw [hshape, pyStrip_sandwich _ _ _ (by decide) (by decide)]

theorem pyStrip_dt64_lit (tz : Str) :
    pyStrip ("DateTime64(6, '".data ++ (tz ++ "')".data)) =
      "DateTime64(6, '".data ++ (tz ++ "')".data) := by
  have hshape : "DateTime64(6, '".data ++ (tz ++ "')".data) =
      'D' :: ((("ateTime64(6, '".data ++ tz) ++ ['\'']) ++ [')']) := by simp
  rw [hshape, pyStrip_sandwich _ _ _ (by decide) (by decide)]

theorem extract_base_type_dt (tz : Str) :
    extract_base_type ("DateTime('".data ++ (tz ++ "')".data)) = "DateTime".data := by
  unfold extract_base_type
  have hlen : ("DateTime('".data ++ (tz ++ "')".data)).length = (tz.length + 11) + 1 := by
    simp [List.length_append]
  rw [hlen]
  rfl

theorem extract_base_type_dt64 (tz : Str) :
    extract_base_type ("DateTime64(6, '".data ++ (tz ++ "')".data)) = "DateTime64".data := by
  unfold extract_base_type
  have hlen : ("DateTime64(6, '".data ++ (tz ++ "')".data)).length = (tz.length + 16) + 1 := by
    simp [List.length_append]
  rw [hlen]
  rfl

theorem extract_base_type_Nul (X : Str) :
    extract_base_type ("Nullable(".data ++ X ++ [')']) = extract_base_type X := by
  have hNa : "Nullable(".data.isPrefixOf ("Nullable(".data ++ X ++ [')']) = true := by
    rw [List.append_assoc]
    exact isPrefixOf_refl_append _ _
  have hdrop : ("Nullable(".data ++ X ++ [')']).drop 9 = X ++ [')'] := by
    rw [List.append_assoc, show (9 : Nat) = "Nullable(".data.length from rfl]
    exact List.drop_left _ _
  unfold extract_base_type
  have hlen : ("Nullable(".data ++ X ++ [')']).length = (X.length + 9) + 1 := by
    simp [List.length_append]
  rw [hlen]
  have hstep : extract_base_type_fuel ((X.length + 9) + 1) ("Nullable(".data ++ X ++ [')']) =
      extract_base_type_fuel (X.length + 9) X := by
    show (if "Nullable(".data.isPrefixOf ("Nullable(".data ++ X ++ [')']) = true then
        extract_base_type_fuel (X.length + 9)
          ((("Nullable(".data ++ X ++ [')']).drop 9).dropLast)
      else if "LowCardinality(".data.isPrefixOf ("Nullable(".data ++ X ++ [')']) = true then
        extract_base_type_fuel (X.length + 9)
          ((("Nullable(".data ++ X ++ [')']).drop 15).dropLast)
      else if ("Nullable(".data ++ X ++ [')']).contains '(' = true then
        ("Nullable(".data ++ X ++ [')']).takeWhile (fun c => c ≠ '(')
      else "Nullable(".data ++ X ++ [')']) = extract_base_type_fuel (X.length + 9) X
    rw [if_pos hNa, hdrop, List.dropLast_concat]
  rw [hstep]
  exact extract_base_type_fuel_irrel (X.length + 9) X.length X (by omega) (by omega)

theorem unwrap_wrappers_Nul (X : Str) :
    unwrap_wrappers ("Nullable(".data ++ X ++ [')']) = unwrap_wrappers X := by
  have hNa : "Nullable(".data.isPrefixOf ("Nullable(".data ++ X ++ [')']) = true := by
    rw [List.append_assoc]
    exact isPrefixOf_refl_append _ _
  have hdrop : ("Nullable(".data ++ X ++ [')']).drop 9 = X ++ [')'] := by
    rw [List.append_assoc, show (9 : Nat) = "Nullable(".data.length from rfl]
    exact List.drop_left _ _
  have hE : endsParen ("Nullable(".data ++ X ++ [')']) = true := by
    unfold endsParen
    rw [List.getLast?_concat]
    rfl
  have hstrip : pyStrip ("Nullable(".data ++ X ++ [')']) =
      "Nullable(".data ++ X ++ [')'] := by
    have hshape : "Nullable(".data ++ X ++ [')'] =
        'N' :: (("ullable(".data ++ X) ++ [')']) := by simp
    rw [hshape, pyStrip_sandwich _ _ _ (by decide) (by decide)]
  unfold unwrap_wrappers
  rw [hstrip]
  have hlen : ("Nullable(".data ++ X ++ [')']).length = (X.length + 9) + 1 := by
    simp [List.length_append]
  rw [hlen]
  have hstep : unwrap_wrappers_fuel ((X.length + 9) + 1) ("Nullable(".data ++ X ++ [')']) =
      unwrap_wrappers_fuel (X.length + 9) (pyStrip X) := by
    show (if "Nullable(".data.isPrefixOf ("Nullable(".data ++ X ++ [')']) = true ∧
        endsParen ("Nullable(".data ++ X ++ [')']) = true then
        unwrap_wrappers_fuel (X.length + 9)
          (pyStrip ((("Nullable(".data ++ X ++ [')']).drop 9).dropLast))
      else if "LowCardinality(".data.isPrefixOf ("Nullable(".data ++ X ++ [')']) = true ∧
          endsParen ("Nullable(".data ++ X ++ [')']) = true then
        unwrap_wrappers_fuel (X.length + 9)
          (pyStrip ((("Nullable(".data ++ X ++ [')']).drop 15).dropLast))
      else "Nullable(".data ++ X ++ [')']) =
      unwrap_wrappers_fuel (X.length + 9) (pyStrip X)
    rw [if_pos ⟨hNa, hE⟩, hdrop, List.dropLast_concat]
  rw [hstep]
  exact unwrap_wrappers_fuel_irrel (X.length + 9) X.length (pyStrip X)
    (le_trans (pyStrip_length_le X) (by omega)) (pyStrip_length_le X)

theorem extract_timezone_dt (tz : Str) (hne : tz ≠ []) (hq : '\'' ∉ tz) :
    extract_timezone ("DateTime('".data ++ (tz ++ "')".data)) = some tz := by
  unfold extract_timezone
  rw [unwrap_wrappers_eq_self _ (pyStrip_dt_lit tz) rfl rfl]
  exact findTzAux_cons_some 'D' ("ateTime('".data ++ (tz ++ "')".data)) tz
    (matchTzAt_dt tz hne hq)

theorem extract_timezone_dt64 (tz : Str) (hne : tz ≠ []) (hq : '\'' ∉ tz) :
    extract_timezone ("DateTime64(6, '".data ++ (tz ++ "')".data)) = some tz := by
  unfold extract_timezone
  rw [unwrap_wrappers_eq_self _ (pyStrip_dt64_lit tz) rfl rfl]
  exact findTzAux_cons_some 'D' ("ateTime64(6, '".data ++ (tz ++ "')".data)) tz
    (matchTzAt_dt64 tz hne hq)

theorem extract_timezone_dt64_nul (tz : Str) (hne : tz ≠ []) (hq : '\'' ∉ tz) :
    extract_timezone
        ("Nullable(".data ++ ("DateTime64(6, '".data ++ (tz ++ "')".data)) ++ [')']) =
      some tz := by
  unfold extract_timezone
  rw [unwrap_wrappers_Nul, unwrap_wrappers_eq_self _ (pyStrip_dt64_lit tz) rfl rfl]
  exact findTzAux_cons_some 'D' ("ateTime64(6, '".data ++ (tz ++ "')".data)) tz
    (matchTzAt_dt64 tz hne hq)

theorem parse_string_type_dt (s L tzv : Str) (hext : extract_timezone L = some tzv) :
    parse_string_type s "DateTime".data L =
      (parse_datetime s).map fun dt => PyValue.pydatetime { dt with tz := some tzv } := by
  unfold parse_string_type
  rw [hext]
  rfl

theorem parse_string_type_dt64 (s L tzv : Str) (hext : extract_timezone L = some tzv) :
    parse_string_type s "DateTime64".data L =
      (parse_datetime_iso s).map fun dt => PyValue.pydatetime { dt with tz := some tzv } := by
  unfold parse_string_type
  rw [hext]
  rfl

theorem parse_datetime_tz_none (v : Str) (d : PyDateTime) (h : parse_datetime v = some d) :
    d.tz = Option.none := by
  unfold parse_datetime at h
  cases hf : parse_datetime_fields v with
  | none => rw [hf] at h; simp at h
  | some t =>
      obtain ⟨y, mo, dd, hh, mi, s⟩ := t
      rw [hf] at h
      simp only [Option.map_some', Option.some.injEq] at h
      rw [← h]

theorem parse_datetime_iso_tz_none (v : Str) (d : PyDateTime)
    (h : parse_datetime_iso v = some d) : d.tz = Option.none := by
  unfold parse_datetime_iso at h
  cases hf : parse_iso_fields v with
  | none => rw [hf] at h; simp at h
  | some t =>
      obtain ⟨y, mo, dd, hh, mi, s, us⟩ := t
      rw [hf] at h
      simp only [Option.map_some', Option.some.injEq] at h
      rw [← h]

/-- C6: a `DateTime`/`DateTime64` value carries the timezone named in the
column type (`DateTime('tz')`, `DateTime64(6, 'tz')`, also under a
`Nullable` wrapper) and is naive when the type names none (`DateTime`,
`DateTime64(6)`): the parsed field values are unchanged and only the `tz`
field is set from the type string. -/
theorem datetime_timezone_annotation (v tz : Str) (d d64 : PyDateTime)
    (hne : tz ≠ []) (hq : '\'' ∉ tz)
    (hdt : parse_datetime v = some d)
    (hiso : parse_datetime_iso v = some d64) :
    from_clickhouse (PyValue.str v) ("DateTime('".data ++ (tz ++ "')".data)) =
        some (PyValue.pydatetime { d with tz := some tz }) ∧
    from_clickhouse (PyValue.str v) ("DateTime64(6, '".data ++ (tz ++ "')".data)) =
        some (PyValue.pydatetime { d64 with tz := some tz }) ∧
    from_clickhouse (PyValue.str v)
        ("Nullable(".data ++ ("DateTime64(6, '".data ++ (tz ++ "')".data)) ++ [')']) =
        some (PyValue.pydatetime { d64 with tz := some tz }) ∧
    from_clickhouse (PyValue.str v) "DateTime".data = some (PyValue.pydatetime d) ∧
    from_clickhouse (PyValue.str v) "DateTime64(6)".data = some (PyValue.pydatetime d64) ∧
    d.tz = Option.none ∧ d64.tz = Option.none := by
  have hDdt : "Decimal".data.isPrefixOf "DateTime".data = false := rfl
  have hDdt64 : "Decimal".data.isPrefixOf "DateTime64".data = false := rfl
  refine ⟨?_, ?_, ?_, ?_, ?_, parse_datetime_tz_none v d hdt,
    parse_datetime_iso_tz_none v d64 hiso⟩
  · rw [from_clickhouse_str, extract_base_type_dt,
      if_neg (fun h => Bool.false_ne_true (hDdt ▸ h)),
      parse_string_type_dt v _ tz (extract_timezone_dt tz hne hq), hdt]
    rfl
  · rw [from_clickhouse_str, extract_base_type_dt64,
      if_neg (fun h => Bool.false_ne_true (hDdt64 ▸ h)),
      parse_string_type_dt64 v _ tz (extract_timezone_dt64 tz hne hq), hiso]
    rfl
  · rw [from_clickhouse_str, extract_base_type_Nul, extract_base_type_dt64,
      if_neg (fun h => Bool.false_ne_true (hDdt64 ▸ h)),
      parse_string_type_dt64 v _ tz (extract_timezone_dt64_nul tz hne hq), hiso]
    rfl
  · have hnaive : from_clickhouse (PyValue.str v) "DateTime".data =
        (parse_datetime v).map PyValue.pydatetime := rfl
    rw [hnaive, hdt]
    rfl
  · have hnaive : from_clickhouse (PyValue.str v) "DateTime64(6)".data =
        (parse_datetime_iso v).map PyValue.pydatetime := rfl
    rw [hnaive, hiso]
    rfl

/-- Witness for the C6 theorem: a concrete value under `DateTime('UTC')`,
`DateTime64(6, 'UTC')`, their naive forms and the `Nullable` wrapper. -/
theorem datetime_timezone_annotation_witness :
    from_clickhouse (PyValue.str "2025-12-14 15:30:45".data)
        ("DateTime('".data ++ ("UTC".data ++ "')".data)) =
        some (PyValue.pydatetime ⟨2025, 12, 14, 15, 30, 45, 0, some "UTC".data⟩) ∧
    from_clickhouse (PyValue.str "2025-12-14 15:30:45".data)
        ("DateTime64(6, '".data ++ ("UTC".data ++ "')".data)) =
        some (PyValue.pydatetime ⟨2025, 12, 14, 15, 30, 45, 0, some "UTC".data⟩) ∧
    from_clickhouse (PyValue.str "2025-12-14 15:30:45".data)
        ("Nullable(".data ++ ("DateTime64(6, '".data ++ ("UTC".data ++ "')".data)) ++ [')']) =
        some (PyValue.pydatetime ⟨2025, 12, 14, 15, 30, 45, 0, some "UTC".data⟩) ∧
    from_clickhouse (PyValue.str "2025-12-14 15:30:45".data) "DateTime".data =
        some (PyValue.pydatetime ⟨2025, 12, 14, 15, 30, 45, 0, Option.none⟩) ∧
    from_clickhouse (PyValue.str "2025-12-14 15:30:45".data) "DateTime64(6)".data =
        some (PyValue.pydatetime ⟨2025, 12, 14, 15, 30, 45, 0, Option.none⟩) ∧
    (⟨2025, 12, 14, 15, 30, 45, 0, Option.none⟩ : PyDateTime).tz = Option.none ∧
    (⟨2025, 12, 14, 15, 30, 45, 0, Option.none⟩ : PyDateTime).tz = Option.none :=
  datetime_timezone_annotation "2025-12-14 15:30:45".data "UTC".data
    ⟨2025, 12, 14, 15, 30, 45, 0, Option.none⟩ ⟨2025, 12, 14, 15, 30, 45, 0, Option.none⟩
    (by decide) (by decide) rfl rfl
